import Mathlib

/-
Verification development for the IPTV portal proxy (src/api/index.py).

The Python source is shallowly embedded below.  Pure helpers become Lean
functions; HTTP calls are modelled by explicit outcome values supplied by
the environment (an `HttpOutcome` per upstream call); Python exceptions
become `Except PyErr`; machine integers do not occur (Python ints are
arbitrary precision; digest arithmetic is `Nat` with explicit `% 2^32`).
Python `time.time()` values are modelled as rationals.
-/

namespace Py

/-- Characters stripped by Python's `str.strip()` (the Unicode whitespace
set used by `str.isspace`). -/
def isPyWs (c : Char) : Bool :=
  let n := c.toNat
  (0x09 ≤ n && n ≤ 0x0d) || (0x1c ≤ n && n ≤ 0x1f) || n == 0x20 ||
  n == 0x85 || n == 0xa0 || n == 0x1680 ||
  (0x2000 ≤ n && n ≤ 0x200a) || n == 0x2028 || n == 0x2029 ||
  n == 0x202f || n == 0x205f || n == 0x3000

/-- `pat` is a prefix of `s` (on character lists). -/
def listStartsWith : List Char → List Char → Bool
  | _, [] => true
  | [], _ :: _ => false
  | a :: s, b :: p => a == b && listStartsWith s p

/-- Python `pat in s` (substring containment) on character lists. -/
def containsAux : List Char → List Char → Bool
  | [], pat => pat.isEmpty
  | s@(_ :: rest), pat => listStartsWith s pat || containsAux rest pat

/-- Python substring test `pat in s`. -/
def strContains (s pat : String) : Bool := containsAux s.data pat.data

/-- Python `s.replace(pat, rep)` (all leftmost non-overlapping occurrences),
on character lists, with fuel; fuel `s.length` suffices for nonempty `pat`.
The Python behaviour for the empty pattern is not reproduced (never used
with an empty pattern in this code base). -/
def replaceAllAux (pat rep : List Char) : Nat → List Char → List Char
  | _, [] => []
  | 0, s => s
  | fuel + 1, s@(c :: rest) =>
    if !pat.isEmpty && listStartsWith s pat then
      rep ++ replaceAllAux pat rep fuel (s.drop pat.length)
    else
      c :: replaceAllAux pat rep fuel rest

/-- Python `s.replace(pat, rep)`. -/
def pyReplace (s pat rep : String) : String :=
  String.mk (replaceAllAux pat.data rep.data s.data.length s.data)

/-- Python `s.strip()` on character lists. -/
def pyStripList (l : List Char) : List Char :=
  (((l.dropWhile isPyWs).reverse.dropWhile isPyWs).reverse)

/-- Python `s.strip()`. -/
def pyStrip (s : String) : String := String.mk (pyStripList s.data)

/-- Python `s.rstrip("/")`. -/
def pyRstripSlash (s : String) : String :=
  String.mk ((s.data.reverse.dropWhile (· == '/')).reverse)

/-- Python `s.split(sep)` for a single-character separator. -/
def charSplit (sep : Char) : List Char → List (List Char)
  | [] => [[]]
  | c :: rest =>
    let r := charSplit sep rest
    if c == sep then [] :: r
    else match r with
      | [] => [[c]]
      | h :: t => (c :: h) :: t

/-- Python `s.upper()` (ASCII; all uses in the source are on hex digests
and MAC strings). -/
def pyUpper (s : String) : String := String.mk (s.data.map Char.toUpper)

/-- Python `s.lower()` (ASCII). -/
def pyLower (s : String) : String := String.mk (s.data.map Char.toLower)

/-- UTF-8 encoding of one code point. -/
def utf8Bytes (c : Nat) : List Nat :=
  if c < 0x80 then [c]
  else if c < 0x800 then [0xc0 + c / 64, 0x80 + c % 64]
  else if c < 0x10000 then
    [0xe0 + c / 4096, 0x80 + (c / 64) % 64, 0x80 + c % 64]
  else
    [0xf0 + c / 262144, 0x80 + (c / 4096) % 64, 0x80 + (c / 64) % 64,
     0x80 + c % 64]

/-- Python `s.encode("utf-8")` as a list of byte values. -/
def strBytes (s : String) : List Nat := (s.data.map (fun c => utf8Bytes c.toNat)).flatten

/-- Dict update `d[k] = v` on an insertion-ordered association list
(replace in place if present, else append), as Python dicts behave. -/
def dictSet (d : List (String × String)) (k v : String) : List (String × String) :=
  match d with
  | [] => [(k, v)]
  | (k', v') :: rest =>
    if k' == k then (k, v) :: rest else (k', v') :: dictSet rest k v

/-- Dict lookup. -/
def dictGet (d : List (String × String)) (k : String) : Option String :=
  (d.find? (fun p => p.1 == k)).map (·.2)

end Py

/-- JSON values as produced by `resp.json()`.  Numbers are modelled as
integers (every number occurring in the protocol data of this program is
an integer). -/
inductive JValue where
  | null : JValue
  | bool : Bool → JValue
  | num : Int → JValue
  | str : String → JValue
  | arr : List JValue → JValue
  | obj : List (String × JValue) → JValue

namespace JValue

/-- Lookup in a JSON object (`d.get(k)` when `d` is a dict). -/
def jLookup (kvs : List (String × JValue)) (k : String) : Option JValue :=
  (kvs.find? (fun p => p.1 == k)).map (·.2)

/-- Python truthiness of a JSON value. -/
def pyTruthy : JValue → Bool
  | .null => false
  | .bool b => b
  | .num n => n != 0
  | .str s => !s.isEmpty
  | .arr xs => !xs.isEmpty
  | .obj kvs => !kvs.isEmpty

/-- Whether the value is a Python dict (supports `.get`). -/
def isObj : JValue → Bool
  | .obj _ => true
  | _ => false

/-- Python `repr` of a JSON value (string escaping inside `repr` is not
modelled; no claim depends on it). -/
def pyRepr : JValue → String
  | .null => "None"
  | .bool true => "True"
  | .bool false => "False"
  | .num n => toString n
  | .str s => "'" ++ s ++ "'"
  | .arr xs => "[" ++ String.intercalate ", " (xs.attach.map (fun x => pyRepr x.1)) ++ "]"
  | .obj kvs => "\x7b" ++ String.intercalate ", "
      (kvs.attach.map (fun kv => "'" ++ kv.1.1 ++ "': " ++ pyRepr kv.1.2)) ++ "\x7d"
decreasing_by
  all_goals simp_wf
  · have h := List.sizeOf_lt_of_mem x.2
    omega
  · obtain ⟨⟨k, v⟩, hm⟩ := kv
    have h := List.sizeOf_lt_of_mem hm
    simp only [Prod.mk.sizeOf_spec] at h
    simp only [] at h ⊢
    omega

/-- Python `str()` of a JSON value. -/
def pyStr : JValue → String
  | .str s => s
  | v => pyRepr v

end JValue

/-
Cryptographic digests used by `generate_device_info` (hashlib.md5,
hashlib.sha256), implemented over byte lists with `Nat` arithmetic
truncated at 32 bits.
-/

namespace Digest

/-- Truncate to a 32-bit word. -/
def w32 (n : Nat) : Nat := n % 4294967296

/-- Right rotation of a 32-bit word. -/
def rotr32 (n x : Nat) : Nat := w32 ((x >>> n) ||| (x <<< (32 - n)))

/-- Left rotation of a 32-bit word. -/
def rotl32 (n x : Nat) : Nat := w32 ((x <<< n) ||| (x >>> (32 - n)))

/-- Big-endian byte serialization, `k` bytes. -/
def natToBytesBE (k n : Nat) : List Nat :=
  (List.range k).map (fun i => (n >>> (8 * (k - 1 - i))) % 256)

/-- Little-endian byte serialization, `k` bytes. -/
def natToBytesLE (k n : Nat) : List Nat :=
  (List.range k).map (fun i => (n >>> (8 * i)) % 256)

/-- Merkle–Damgård padding: append 0x80, zero bytes, and the 8-byte
message bit length (big- or little-endian by `be`), to a 64-byte multiple. -/
def padMsg (be : Bool) (msg : List Nat) : List Nat :=
  let L := msg.length
  let k := (64 + 56 - ((L + 1) % 64)) % 64
  msg ++ [0x80] ++ List.replicate k 0 ++
    (if be then natToBytesBE 8 (L * 8) else natToBytesLE 8 (L * 8))

/-- Group bytes into 32-bit words, big-endian. -/
def wordsBE : List Nat → List Nat
  | a :: b :: c :: d :: rest => (((a * 256 + b) * 256 + c) * 256 + d) :: wordsBE rest
  | _ => []

/-- Group bytes into 32-bit words, little-endian. -/
def wordsLE : List Nat → List Nat
  | a :: b :: c :: d :: rest => (a + 256 * (b + 256 * (c + 256 * d))) :: wordsLE rest
  | _ => []

/-- Split a word list into 16-word blocks (fuel-driven). -/
def blocks16Aux : Nat → List Nat → List (List Nat)
  | 0, _ => []
  | _, [] => []
  | fuel + 1, ws => ws.take 16 :: blocks16Aux fuel (ws.drop 16)

def blocks16 (ws : List Nat) : List (List Nat) := blocks16Aux ws.length ws

/-- Lowercase hex digit. -/
def toHexDigit (n : Nat) : Char :=
  if n < 10 then Char.ofNat (48 + n) else Char.ofNat (87 + n)

/-- Lowercase hex of a byte list (as `hexdigest()` produces). -/
def bytesToHex (bs : List Nat) : String :=
  String.mk ((bs.map (fun b => [toHexDigit (b / 16), toHexDigit (b % 16)])).flatten)

/- SHA-256 -/

def sha256K : List Nat :=
  [1116352408, 1899447441, 3049323471, 3921009573, 961987163, 1508970993,
   2453635748, 2870763221, 3624381080, 310598401, 607225278, 1426881987,
   1925078388, 2162078206, 2614888103, 3248222580, 3835390401, 4022224774,
   264347078, 604807628, 770255983, 1249150122, 1555081692, 1996064986,
   2554220882, 2821834349, 2952996808, 3210313671, 3336571891, 3584528711,
   113926993, 338241895, 666307205, 773529912, 1294757372, 1396182291,
   1695183700, 1986661051, 2177026350, 2456956037, 2730485921, 2820302411,
   3259730800, 3345764771, 3516065817, 3600352804, 4094571909, 275423344,
   430227734, 506948616, 659060556, 883997877, 958139571, 1322822218,
   1537002063, 1747873779, 1955562222, 2024104815, 2227730452, 2361852424,
   2428436474, 2756734187, 3204031479, 3329325298]

def sha256H0 : List Nat :=
  [1779033703, 3144134277, 1013904242, 2773480762, 1359893119, 2600822924,
   528734635, 1541459225]

def sSig0 (x : Nat) : Nat := rotr32 7 x ^^^ rotr32 18 x ^^^ (x >>> 3)
def sSig1 (x : Nat) : Nat := rotr32 17 x ^^^ rotr32 19 x ^^^ (x >>> 10)
def bSig0 (x : Nat) : Nat := rotr32 2 x ^^^ rotr32 13 x ^^^ rotr32 22 x
def bSig1 (x : Nat) : Nat := rotr32 6 x ^^^ rotr32 11 x ^^^ rotr32 25 x
def chFn (e f g : Nat) : Nat := (e &&& f) ^^^ ((e ^^^ 0xffffffff) &&& g)
def majFn (a b c : Nat) : Nat := (a &&& b) ^^^ (a &&& c) ^^^ (b &&& c)

/-- Message-schedule extension of a 16-word block to 64 words. -/
def sha256Extend (block : List Nat) : List Nat :=
  (List.range 48).foldl
    (fun acc _ =>
      let i := acc.length
      acc ++ [w32 (acc.getD (i - 16) 0 + sSig0 (acc.getD (i - 15) 0) +
                   acc.getD (i - 7) 0 + sSig1 (acc.getD (i - 2) 0))])
    block

/-- One SHA-256 round; the state is the word list `[a,b,c,d,e,f,g,h]`. -/
def sha256Step (st : List Nat) (p : Nat × Nat) : List Nat :=
  match st with
  | [a, b, c, d, e, f, g, h] =>
    let t1 := w32 (h + bSig1 e + chFn e f g + p.1 + p.2)
    let t2 := w32 (bSig0 a + majFn a b c)
    [w32 (t1 + t2), a, b, c, w32 (d + t1), e, f, g]
  | _ => st

/-- SHA-256 compression of one block. -/
def sha256Block (h : List Nat) (block : List Nat) : List Nat :=
  let st := (sha256K.zip (sha256Extend block)).foldl sha256Step h
  (h.zip st).map (fun p => w32 (p.1 + p.2))

def sha256Bytes (msg : List Nat) : List Nat :=
  (((blocks16 (wordsBE (padMsg true msg))).foldl sha256Block sha256H0).map
    (natToBytesBE 4)).flatten

/-- `hashlib.sha256(s.encode()).hexdigest()`. -/
def sha256Hex (s : String) : String := bytesToHex (sha256Bytes (Py.strBytes s))

/- MD5 -/

def md5K : List Nat :=
  [3614090360, 3905402710, 606105819, 3250441966, 4118548399, 1200080426,
   2821735955, 4249261313, 1770035416, 2336552879, 4294925233, 2304563134,
   1804603682, 4254626195, 2792965006, 1236535329, 4129170786, 3225465664,
   643717713, 3921069994, 3593408605, 38016083, 3634488961, 3889429448,
   568446438, 3275163606, 4107603335, 1163531501, 2850285829, 4243563512,
   1735328473, 2368359562, 4294588738, 2272392833, 1839030562, 4259657740,
   2763975236, 1272893353, 4139469664, 3200236656, 681279174, 3936430074,
   3572445317, 76029189, 3654602809, 3873151461, 530742520, 3299628645,
   4096336452, 1126891415, 2878612391, 4237533241, 1700485571, 2399980690,
   4293915773, 2240044497, 1873313359, 4264355552, 2734768916, 1309151649,
   4149444226, 3174756917, 718787259, 3951481745]

def md5S : List Nat :=
  [7, 12, 17, 22, 7, 12, 17, 22, 7, 12, 17, 22, 7, 12, 17, 22,
   5, 9, 14, 20, 5, 9, 14, 20, 5, 9, 14, 20, 5, 9, 14, 20,
   4, 11, 16, 23, 4, 11, 16, 23, 4, 11, 16, 23, 4, 11, 16, 23,
   6, 10, 15, 21, 6, 10, 15, 21, 6, 10, 15, 21, 6, 10, 15, 21]

def md5Init : List Nat := [1732584193, 4023233417, 2562383102, 271733878]

def md5F (i b c d : Nat) : Nat :=
  if i < 16 then (b &&& c) ||| ((b ^^^ 0xffffffff) &&& d)
  else if i < 32 then (d &&& b) ||| ((d ^^^ 0xffffffff) &&& c)
  else if i < 48 then b ^^^ c ^^^ d
  else c ^^^ (b ||| (d ^^^ 0xffffffff))

def md5G (i : Nat) : Nat :=
  if i < 16 then i
  else if i < 32 then (5 * i + 1) % 16
  else if i < 48 then (3 * i + 5) % 16
  else (7 * i) % 16

/-- MD5 compression of one block. -/
def md5Block (st : List Nat) (m : List Nat) : List Nat :=
  let res := (List.range 64).foldl
    (fun s i =>
      match s with
      | [a, b, c, d] =>
        let f := w32 (md5F i b c d + a + md5K.getD i 0 + m.getD (md5G i) 0)
        [d, w32 (b + rotl32 (md5S.getD i 0) f), b, c]
      | _ => s)
    st
  (st.zip res).map (fun p => w32 (p.1 + p.2))

def md5Bytes (msg : List Nat) : List Nat :=
  (((blocks16 (wordsLE (padMsg false msg))).foldl md5Block md5Init).map
    (natToBytesLE 4)).flatten

/-- `hashlib.md5(s.encode()).hexdigest()`. -/
def md5Hex (s : String) : String := bytesToHex (md5Bytes (Py.strBytes s))

end Digest

/-
Python exceptions that the embedded code can raise.
-/
inductive PyErr where
  | runtimeError (msg : String)
  | transportError
  | jsonDecodeError
  | attributeError
  | valueError (msg : String)
deriving DecidableEq

namespace UrlLib

/-
Model of the `urllib.parse` behaviour used by `normalize_url_and_name`
(CPython 3.9+ `urlsplit`/`urljoin`): `urlsplit` first removes every
tab/CR/LF character, strips leading and trailing C0-control-or-space
characters, then parses; the network location is the segment between a
leading `scheme://` and the first `/`, `?` or `#`; a netloc containing an
unbalanced square bracket raises `ValueError("Invalid IPv6 URL")`.
The model covers URLs whose scheme part is literally `http` or `https` —
the only shapes `normalize_url_and_name` ever passes to these functions
(it prepends `http://` when neither prefix is present).  The
bracketed-host content validation added in CPython 3.11 is not modelled.
-/

/-- Characters removed everywhere by `urlsplit` (tab, CR, LF). -/
def isUnsafeUrlChar (c : Char) : Bool := c == '\t' || c == '\r' || c == '\n'

/-- C0-control-or-space characters stripped from the ends by `urlsplit`. -/
def isC0OrSpace (c : Char) : Bool := c.toNat ≤ 0x20

/-- The cleanup `urlsplit` applies before parsing: remove tab/CR/LF
everywhere, then strip C0-control-or-space characters from both ends. -/
def urlCleanList (l : List Char) : List Char :=
  let l1 := l.filter (fun c => !isUnsafeUrlChar c)
  ((l1.dropWhile isC0OrSpace).reverse.dropWhile isC0OrSpace).reverse

/-- Split off a literal `http://` or `https://` prefix after cleanup,
returning the scheme and the remaining characters. -/
def splitSchemeNetloc (s : String) : Option (String × List Char) :=
  let l := urlCleanList s.data
  if Py.listStartsWith l ("https://".data) then some ("https", l.drop 8)
  else if Py.listStartsWith l ("http://".data) then some ("http", l.drop 7)
  else none

/-- Characters terminating the netloc segment. -/
def isNetlocDelim (c : Char) : Bool := c == '/' || c == '?' || c == '#'

/-- The unbalanced-bracket test `urlsplit` applies to the netloc. -/
def badBrackets (nl : List Char) : Bool :=
  (nl.contains '[' && !nl.contains ']') || (nl.contains ']' && !nl.contains '[')

/-- `urlparse(url).netloc` for the URL shapes produced here: empty when no
`http(s)://` prefix is present (e.g. `"http:"`), otherwise the segment up
to the first `/`, `?` or `#`; raises `ValueError` on unbalanced brackets. -/
def urlsplitNetloc (s : String) : Except PyErr String :=
  match splitSchemeNetloc s with
  | none => .ok ""
  | some (_, rest) =>
    let nl := rest.takeWhile (fun c => !isNetlocDelim c)
    if badBrackets nl then .error (.valueError "Invalid IPv6 URL")
    else .ok (String.mk nl)

/-- `urljoin(base, "/")` for a base with an `http(s)` scheme: parse the
base (which may raise `ValueError`), then rebuild `scheme://netloc/` —
or `scheme:/` when the netloc is empty, since `urlunparse` emits `//`
only for a nonempty netloc.  The `none` branch is unreachable from
`normalize_url_and_name`, which always passes a prefixed URL. -/
def urljoinRoot (s : String) : Except PyErr String :=
  match splitSchemeNetloc s with
  | none => .ok s
  | some (scheme, rest) =>
    let nl := rest.takeWhile (fun c => !isNetlocDelim c)
    if badBrackets nl then .error (.valueError "Invalid IPv6 URL")
    else .ok (scheme ++ ":" ++ (if nl.isEmpty then "/" else "//" ++ String.mk nl ++ "/"))

end UrlLib

namespace Src

/-- Python `s.startswith(pre)`. -/
def pyStartsWith (s pre : String) : Bool := Py.listStartsWith s.data pre.data

/-- Embedding of `normalize_url_and_name` (src/api/index.py lines 31-41).
Exceptions escaping `urllib` (`ValueError` on unbalanced brackets in the
host) propagate, as in the source. -/
def normalize_url_and_name (input_url : String) : Except PyErr (String × String) :=
  let url0 := Py.pyStrip input_url
  let url1 :=
    if pyStartsWith url0 "http://" || pyStartsWith url0 "https://" then url0
    else "http://" ++ url0
  match UrlLib.urljoinRoot url1 with
  | .error e => .error e
  | .ok url2 =>
    let url := Py.pyRstripSlash url2
    match UrlLib.urlsplitNetloc url with
    | .error e => .error e
    | .ok netloc =>
      let parts := (Py.charSplit '.' netloc.data).map String.mk
      let name_part :=
        if netloc.data.contains '.' then
          String.join (parts.drop (parts.length - 2))
        else
          Py.pyReplace netloc "." ""
      .ok (url, Py.pyLower name_part)

/-- Uppercase hex digit. -/
def hexUpperDigit (n : Nat) : Char :=
  if n < 10 then Char.ofNat (48 + n) else Char.ofNat (55 + n)

/-- Byte kept verbatim by `urllib.parse.quote` with the default
`safe="/"`: letters, digits, `_ . - ~` and `/`. -/
def quoteSafe (b : Nat) : Bool :=
  (65 ≤ b && b ≤ 90) || (97 ≤ b && b ≤ 122) || (48 ≤ b && b ≤ 57) ||
  b == 95 || b == 46 || b == 45 || b == 126 || b == 47

/-- `urllib.parse.quote(s)`: percent-encode the UTF-8 bytes of every
non-safe character. -/
def pyQuote (s : String) : String :=
  String.mk (((Py.strBytes s).map (fun b =>
    if quoteSafe b then [Char.ofNat b]
    else ['%', hexUpperDigit (b / 16), hexUpperDigit (b % 16)])).flatten)

/-- Embedding of `generate_device_info` (src/api/index.py lines 44-51). -/
structure DeviceInfo where
  SN : String
  SNCUT : String
  Device_ID1 : String
  Device_ID2 : String
  Signature : String
  MAC_Encoded : String
deriving DecidableEq

def generate_device_info (mac : String) : DeviceInfo :=
  let SN := Py.pyUpper (Digest.md5Hex mac)
  let SNCUT := String.mk (SN.data.take 13)
  let DEV1 := Py.pyUpper (Digest.sha256Hex mac)
  let DEV2 := Py.pyUpper (Digest.sha256Hex SNCUT)
  let SIGNATURE := Py.pyUpper (Digest.sha256Hex (SNCUT ++ mac))
  ⟨SN, SNCUT, DEV1, DEV2, SIGNATURE, pyQuote (Py.pyUpper mac)⟩

end Src

/-
HTTP layer.  Each upstream call's outcome is supplied by the environment:
either the transport raised (`exn`, a `requests` exception) or a response
arrived.  `text` models `resp.text`; `jsonBody` models `resp.json()` —
`none` means the body is not valid JSON and `resp.json()` raises.
-/

structure HttpResponse where
  status : Nat
  text : String
  jsonBody : Option JValue

inductive HttpOutcome where
  | exn : HttpOutcome
  | resp : HttpResponse → HttpOutcome

inductive Method where
  | get : Method
  | post : Method
deriving DecidableEq

/-- An outbound request as issued by the source (method, URL, headers and
the session's cookie jar). -/
structure Request where
  method : Method
  url : String
  headers : List (String × String)
  cookies : List (String × String)

namespace Src

/-- `"stalker_portal" if portal_type == "1" else "c"`. -/
def pfxOf (portal_type : String) : String :=
  if portal_type == "1" then "stalker_portal" else "c"

/-- The create_link request URL (src/api/index.py line 57); `cmd2` is the
already-preprocessed command. -/
def create_link_url (base_url cmd2 portal_type : String) : String :=
  base_url ++ "/" ++ pfxOf portal_type ++
    "/server/load.php?type=itv&action=create_link&cmd=" ++ pyQuote cmd2 ++
    "&JsHttpRequest=1-xml"

/-- Result of one attempt of the create_link loop body (lines 59-68):
`some s` when the body `return`s the cleaned command `s`; `none` when the
attempt falls through or its exception is caught (`continue`). -/
def linkAttempt (o : HttpOutcome) : Option String :=
  match o with
  | .exn => none
  | .resp r =>
    if r.status != 200 then none
    else
      match r.jsonBody with
      | none => none
      | some d =>
        match d with
        | .obj kvs =>
          match (JValue.jLookup kvs "js").getD (.obj []) with
          | .obj jkvs =>
            let cmdv := (JValue.jLookup jkvs "cmd").getD .null
            if cmdv.pyTruthy then
              match cmdv with
              | .str s => some (Py.pyStrip (Py.pyReplace s "ffrt " ""))
              | _ => none
            else none
          | _ => none
        | _ => none

/-- The `for attempt in range(retries)` loop: `i` is the index of the next
attempt, the fuel is the number of attempts left; returns the result and
the number of attempts performed. -/
def clLoop (atts : Nat → HttpOutcome) : Nat → Nat → Option String × Nat
  | i, 0 => (none, i)
  | i, fuel + 1 =>
    match linkAttempt (atts i) with
    | some s => (some s, i + 1)
    | none => clLoop atts (i + 1) fuel

/-- Embedding of `create_link` (src/api/index.py lines 54-69).  The i-th
upstream `session.get` outcome is `atts i`; the pair returned is the
Python return value (`None` = `none`) and the number of upstream attempts
performed. -/
def create_link (base_url cmd portal_type : String) (atts : Nat → HttpOutcome)
    (retries : Nat) : Option String × Nat :=
  let cmd2 := Py.pyReplace (Py.pyStrip cmd) "ffrt " ""
  let _url := create_link_url base_url cmd2 portal_type
  clLoop atts 0 retries

/-- The fixed set-top-box headers built at lines 77-84. -/
def baseHeaders (base_url pfx : String) : List (String × String) :=
  [("User-Agent", "Mozilla/5.0 (QtEmbedded; U; Linux; C) AppleWebKit/533.3 (KHTML, like Gecko) MAG200 stbapp ver: 2 rev: 250 Safari/533.3"),
   ("X-User-Agent", "Model: MAG250; Link: WiFi"),
   ("Referer", base_url ++ "/" ++ pfx ++ "/c/"),
   ("Accept", "*/*"),
   ("Connection", "Keep-Alive"),
   ("Accept-Encoding", "gzip")]

/-- The three upstream responses a session acquisition may consume. -/
structure Env where
  handshake : HttpOutcome
  profile : HttpOutcome
  catalog : HttpOutcome

/-- Embedding of `init_portal_session_and_channels` (src/api/index.py
lines 72-111).  Returns the trace of issued requests together with either
the propagated exception or the `(session cookie jar, headers, channels)`
triple. -/
def init_portal_session_and_channels (base_url mac portal_type : String) (env : Env) :
    List Request × Except PyErr (List (String × String) × List (String × String) × JValue) :=
  let pfx := pfxOf portal_type
  let handshake_url := base_url ++ "/" ++ pfx ++
    "/server/load.php?action=handshake&type=stb&token=&JsHttpRequest=1-xml"
  let headers := baseHeaders base_url pfx
  let cookies := [("mac", mac)]
  let req1 : Request := ⟨.post, handshake_url, headers, cookies⟩
  match env.handshake with
  | .exn => ([req1], .error .transportError)
  | .resp r1 =>
    let jsE : Except PyErr JValue :=
      if r1.status == 200 then
        match r1.jsonBody with
        | none => .error .jsonDecodeError
        | some (.obj kvs) => .ok ((JValue.jLookup kvs "js").getD (.obj []))
        | some _ => .error .attributeError
      else .ok (.obj [])
    match jsE with
    | .error e => ([req1], .error e)
    | .ok js =>
      let tokenE : Except PyErr JValue :=
        match js with
        | .obj kvs => .ok ((JValue.jLookup kvs "token").getD .null)
        | _ => .error .attributeError
      match tokenE with
      | .error e => ([req1], .error e)
      | .ok token =>
        if !token.pyTruthy then
          ([req1], .error (.runtimeError "Handshake failed or token missing"))
        else
          let headers2 := Py.dictSet headers "Authorization" ("Bearer " ++ token.pyStr)
          let di := generate_device_info mac
          let profile_url := base_url ++ "/" ++ pfx ++
            "/server/load.php?type=stb&action=get_profile&sn=" ++ di.SNCUT ++
            "&device_id=" ++ di.Device_ID1 ++ "&device_id2=" ++ di.Device_ID1 ++
            "&signature=" ++ di.Signature ++ "&JsHttpRequest=1-xml"
          let req2 : Request := ⟨.get, profile_url, headers2, cookies⟩
          match env.profile with
          | .exn => ([req1, req2], .error .transportError)
          | .resp r2 =>
            if !(decide (r2.status < 400)) || !(Py.strContains r2.text "js") then
              ([req1, req2], .error (.runtimeError "Profile validation failed"))
            else
              let all_url := base_url ++ "/" ++ pfx ++
                "/server/load.php?type=itv&action=get_all_channels&JsHttpRequest=1-xml"
              let req3 : Request := ⟨.get, all_url, headers2, cookies⟩
              match env.catalog with
              | .exn => ([req1, req2, req3], .error .transportError)
              | .resp r3 =>
                let dataE : Except PyErr JValue :=
                  if r3.status == 200 then
                    match r3.jsonBody with
                    | none => .error .jsonDecodeError
                    | some d => .ok d
                  else .ok (.obj [])
                match dataE with
                | .error e => ([req1, req2, req3], .error e)
                | .ok data =>
                  let chE : Except PyErr JValue :=
                    match data with
                    | .obj kvs =>
                      match (JValue.jLookup kvs "js").getD (.obj []) with
                      | .obj g => .ok ((JValue.jLookup g "data").getD (.arr []))
                      | _ => .error .attributeError
                    | _ => .ok (.arr [])
                  match chE with
                  | .error e => ([req1, req2, req3], .error e)
                  | .ok channels => ([req1, req2, req3], .ok (cookies, headers2, channels))

/-- Process configuration (module-level constants of the source). -/
structure Config where
  baseUrl : String
  mac : String
  portalType : String
  ttl : ℚ

/-- The `_cache` dict (lines 20-26). -/
structure Cache where
  session : Option (List (String × String))
  headers : Option (List (String × String))
  channels : JValue
  portal_name : Option String
  expires : ℚ

/-- `_cache` at module load: all entries `None`, `expires = 0`. -/
def initialCache : Cache := ⟨none, none, .null, none, 0⟩

/-- The fast-path test of line 116:
`_cache["channels"] and time.time() < _cache["expires"]`. -/
def fastPath (c : Cache) (t : ℚ) : Bool :=
  c.channels.pyTruthy && decide (t < c.expires)

/-- The data a successful acquisition installs into the cache. -/
structure AcqOk where
  cookies : List (String × String)
  headers : List (String × String)
  channels : JValue
  pname : String

/-- The `_cache.update(...)` of lines 120-126: all five entries replaced
together, `expires = time.time() + CACHE_TTL`. -/
def refreshedCache (cfg : Config) (t : ℚ) (a : AcqOk) : Cache :=
  ⟨some a.cookies, some a.headers, a.channels, some a.pname, t + cfg.ttl⟩

/-- Embedding of `ensure_cache` (src/api/index.py lines 114-126), executed
under `_lock`.  `t1` and `t2` are the two `time.time()` readings (line 116
and line 125); the result is the cache after the call, the caller-visible
outcome, and the number of upstream HTTP requests issued. -/
def ensure_cache (cfg : Config) (c : Cache) (t1 t2 : ℚ) (env : Env) :
    Cache × Except PyErr Unit × Nat :=
  if fastPath c t1 then (c, .ok (), 0)
  else
    match normalize_url_and_name cfg.baseUrl with
    | .error e => (c, .error e, 0)
    | .ok (base, pname) =>
      match init_portal_session_and_channels base cfg.mac cfg.portalType env with
      | (trace, .error e) => (c, .error e, trace.length)
      | (trace, .ok (cookies, hdrs, ch)) =>
        (refreshedCache cfg t2 ⟨cookies, hdrs, ch, pname⟩, .ok (), trace.length)

/-- Handler outcome of `getlink` after a successful `ensure_cache`
(maps to 404 / 400 / 502 / a 302 redirect in the route). -/
inductive GLResult where
  | notFound : GLResult
  | noCmd : GLResult
  | failedLink : GLResult
  | redirect : String → GLResult
deriving DecidableEq

/-- The generator-expression lookup of line 170:
`next((c for c in channels if str(c.get("id")) == str(ch_id)), None)`;
`.get` on a non-dict entry raises. -/
def findChannel (chs : List JValue) (target : String) : Except PyErr (Option JValue) :=
  match chs with
  | [] => .ok none
  | c :: rest =>
    match c with
    | .obj kvs =>
      if JValue.pyStr ((JValue.jLookup kvs "id").getD .null) == target then .ok (some c)
      else findChannel rest target
    | _ => .error .attributeError

/-- Embedding of the resolution part of `getlink` (src/api/index.py lines
170-183), after `ensure_cache` has succeeded: given the cached channel
list and the upstream create_link outcomes, produce the handler result and
the number of upstream attempts made. -/
def getlink_resolve (channels : List JValue) (ch_id : Int)
    (portal_base portal_type : String) (atts : Nat → HttpOutcome) :
    Except PyErr (GLResult × Nat) :=
  match findChannel channels (toString ch_id) with
  | .error e => .error e
  | .ok none => .ok (.notFound, 0)
  | .ok (some (.obj kvs)) =>
    match (JValue.jLookup kvs "cmd").getD (.str "") with
    | .str s0 =>
      let cmd := Py.pyStrip s0
      if cmd.isEmpty then .ok (.noCmd, 0)
      else if Py.strContains cmd "ffmpeg" then
        let real_url := Py.pyStrip (Py.pyReplace cmd "ffmpeg " "")
        .ok (if real_url.isEmpty then .failedLink else .redirect real_url, 0)
      else
        match create_link (Py.pyRstripSlash portal_base) cmd portal_type atts 3 with
        | (none, n) => .ok (.failedLink, n)
        | (some u, n) => .ok (if u.isEmpty then .failedLink else .redirect u, n)
    | _ => .error .attributeError
  | .ok (some _) => .ok (.notFound, 0)

end Src

/-
Concurrency model for the stampede-prevention claim: each request handler
thread runs `ensure_cache` guarded by the global `_lock`.  A thread
acquires the lock (blocking while another holds it), performs the line-116
check, and on a miss runs one full handshake sequence (`refreshing`)
before installing the result and releasing the lock — mirroring that the
`with _lock:` block spans the whole of `ensure_cache`.  Each `time.time()`
reading is a nondeterministic rational drawn from the time predicate `τ`;
the k-th handshake sequence started process-wide has outcome `acqs k`.
-/

namespace Conc

inductive PC where
  | start : PC
  | check : PC
  | refreshing : PC
  | done : PC
deriving DecidableEq

structure Sys (N : Nat) where
  pc : Fin N → PC
  lock : Option (Fin N)
  cache : Src.Cache
  started : Nat

/-- All threads at entry, lock free, cache as given, no handshake yet. -/
def initSys (N : Nat) (c0 : Src.Cache) : Sys N :=
  ⟨fun _ => .start, none, c0, 0⟩

/-- One interleaved step of the system. -/
inductive SysStep (acqs : Nat → Except PyErr Src.AcqOk) (cfg : Src.Config)
    (τ : ℚ → Prop) : {N : Nat} → Sys N → Sys N → Prop
  | acquire {N} {s : Sys N} (i : Fin N) :
      s.pc i = .start → s.lock = none →
      SysStep acqs cfg τ s
        { s with pc := Function.update s.pc i .check, lock := some i }
  | hit {N} {s : Sys N} (i : Fin N) (t : ℚ) :
      τ t → s.pc i = .check → s.lock = some i →
      Src.fastPath s.cache t = true →
      SysStep acqs cfg τ s
        { s with pc := Function.update s.pc i .done, lock := none }
  | miss {N} {s : Sys N} (i : Fin N) (t : ℚ) :
      τ t → s.pc i = .check → s.lock = some i →
      Src.fastPath s.cache t = false →
      SysStep acqs cfg τ s
        { s with pc := Function.update s.pc i .refreshing, started := s.started + 1 }
  | finishOk {N} {s : Sys N} (i : Fin N) (t : ℚ) (a : Src.AcqOk) :
      τ t → s.pc i = .refreshing → s.lock = some i →
      acqs (s.started - 1) = .ok a →
      SysStep acqs cfg τ s
        { s with pc := Function.update s.pc i .done, lock := none,
                 cache := Src.refreshedCache cfg t a }
  | finishErr {N} {s : Sys N} (i : Fin N) (e : PyErr) :
      s.pc i = .refreshing → s.lock = some i →
      acqs (s.started - 1) = .error e →
      SysStep acqs cfg τ s
        { s with pc := Function.update s.pc i .done, lock := none }

/-- Reachability from a given start state. -/
inductive Reach (acqs : Nat → Except PyErr Src.AcqOk) (cfg : Src.Config)
    (τ : ℚ → Prop) {N : Nat} (s0 : Sys N) : Sys N → Prop
  | refl : Reach acqs cfg τ s0 s0
  | step {s s' : Sys N} : Reach acqs cfg τ s0 s → SysStep acqs cfg τ s s' →
      Reach acqs cfg τ s0 s'

/-- A thread past its lock acquisition holds the lock. -/
def LockInv {N : Nat} (s : Sys N) : Prop :=
  ∀ i, (s.pc i = .check ∨ s.pc i = .refreshing) → s.lock = some i

end Conc

namespace Conc

/-- The cache passes the line-116 check at every scenario time. -/
def Fresh (τ : ℚ → Prop) (c : Src.Cache) : Prop :=
  ∀ t, τ t → Src.fastPath c t = true

/-- Scenario invariant for a burst of callers over a cold cache: no
handshake has started (and the cache is untouched, everyone before the
check), or exactly one has started and either its refresher is still
inside the critical section or the refreshed cache is fresh for the whole
burst. -/
def ScInv (τ : ℚ → Prop) (c0 : Src.Cache) {N : Nat} (s : Sys N) : Prop :=
  (s.started = 0 ∧ s.cache = c0 ∧ ∀ i, s.pc i = .start ∨ s.pc i = .check)
  ∨ (s.started = 1 ∧
      (((∃ i, s.pc i = .refreshing) ∧ s.cache = c0)
       ∨ ((∀ i, s.pc i ≠ .refreshing) ∧ Fresh τ s.cache)))

end Conc

namespace Src

/-- Cache states reachable through `ensure_cache` calls from process
start, for any call times and upstream behaviours. -/
inductive CacheReachable (cfg : Config) : Cache → Prop where
  | base : CacheReachable cfg initialCache
  | step (c : Cache) (t1 t2 : ℚ) (env : Env) :
      CacheReachable cfg c → CacheReachable cfg (ensure_cache cfg c t1 t2 env).1

/-- Classifier for one create_link attempt: the raw `js["cmd"]` string the
loop body would accept (before marker cleanup), if any. -/
def rawCmdOf (o : HttpOutcome) : Option String :=
  match o with
  | .exn => none
  | .resp r =>
    if r.status != 200 then none
    else
      match r.jsonBody with
      | some (.obj kvs) =>
        match (JValue.jLookup kvs "js").getD (.obj []) with
        | .obj jkvs =>
          match (JValue.jLookup jkvs "cmd").getD .null with
          | .str s => if s.isEmpty then none else some s
          | _ => none
        | _ => none
      | _ => none

end Src

namespace Spec

/-- Modelled from the spec's words for comparison: stripping the `ffrt `
marker only when it occurs as a leading prefix of the command. -/
def stripMarkerPrefix (s : String) : String :=
  if Py.listStartsWith s.data ("ffrt ".data) then String.mk (s.data.drop 5) else s

/-- Query-parameter extraction from a URL (refutation helper): the value
of the first `&`-separated segment that starts with `key=`. -/
def queryParam (url key : String) : Option String :=
  ((Py.charSplit '&' url.data).map String.mk).findSome? (fun seg =>
    if Py.listStartsWith seg.data (key ++ "=").data then
      some (String.mk (seg.data.drop (key.length + 1)))
    else none)

end Spec

namespace Fix

/-- Handshake response carrying token `T1`. -/
def r1good : HttpOutcome := .resp ⟨200, "", some (.obj [("js", .obj [("token", .str "T1")])])⟩

/-- Profile response passing the line-102 check: its body, the JSON array
`["js"]`, contains the substring `js`. -/
def r2good : HttpOutcome := .resp ⟨200, "[\"js\"]", some (.arr [.str "js"])⟩

/-- Catalog response with an empty channel list. -/
def r3empty : HttpOutcome :=
  .resp ⟨200, "", some (.obj [("js", .obj [("data", .arr [])])])⟩

/-- Catalog response with one channel. -/
def r3one : HttpOutcome :=
  .resp ⟨200, "", some (.obj [("js", .obj [("data", .arr
    [.obj [("id", .num 5), ("name", .str "News"), ("logo", .str "n.png"),
           ("cmd", .str "ffrt http://n/play")]])])])⟩

def envEmpty : Src.Env := ⟨r1good, r2good, r3empty⟩

def envOne : Src.Env := ⟨r1good, r2good, r3one⟩

/-- Environment whose handshake returns HTTP 500. -/
def envFail : Src.Env := ⟨.resp ⟨500, "", none⟩, r2good, r3empty⟩

def cfg0 : Src.Config := ⟨"http://tatatv.cc/stalker_portal/c/", "00:1A:79:00:13:DA", "1", 300⟩

/-- A populated cache with a nonempty channel list, expiring at 10. -/
def cW : Src.Cache := ⟨some [("mac", "m")], some [], .arr [.null], some "p", 10⟩

end Fix

/-
Concrete two-thread execution for the stampede claim: both acquisitions
succeed but yield an empty catalog, so the second caller re-runs the
handshake even though the first one's refresh succeeded.
-/

namespace Fix

def c2acq : Src.AcqOk := ⟨[("mac", "m")], [], .arr [], "p"⟩

def c2acqs : Nat → Except PyErr Src.AcqOk := fun _ => .ok c2acq

def c2cfg : Src.Config := ⟨"http://h", "m", "1", 300⟩

def c2s0 : Conc.Sys 2 := Conc.initSys 2 Src.initialCache

def c2s1 : Conc.Sys 2 :=
  { c2s0 with pc := Function.update c2s0.pc 0 .check, lock := some 0 }

def c2s2 : Conc.Sys 2 :=
  { c2s1 with pc := Function.update c2s1.pc 0 .refreshing, started := c2s1.started + 1 }

def c2s3 : Conc.Sys 2 :=
  { c2s2 with pc := Function.update c2s2.pc 0 .done, lock := none,
              cache := Src.refreshedCache c2cfg 0 c2acq }

def c2s4 : Conc.Sys 2 :=
  { c2s3 with pc := Function.update c2s3.pc 1 .check, lock := some 1 }

def c2s5 : Conc.Sys 2 :=
  { c2s4 with pc := Function.update c2s4.pc 1 .refreshing, started := c2s4.started + 1 }

def c2s6 : Conc.Sys 2 :=
  { c2s5 with pc := Function.update c2s5.pc 1 .done, lock := none,
              cache := Src.refreshedCache c2cfg 1 c2acq }

/-- One-thread witness run: acquisition with a nonempty catalog. -/
def wAcq : Src.AcqOk := ⟨[("mac", "m")], [], .arr [.null], "p"⟩

def wAcqs : Nat → Except PyErr Src.AcqOk := fun _ => .ok wAcq

def wTau : ℚ → Prop := fun t => 0 ≤ t ∧ t < 300

def ws0 : Conc.Sys 1 := Conc.initSys 1 Src.initialCache

def ws1 : Conc.Sys 1 :=
  { ws0 with pc := Function.update ws0.pc 0 .check, lock := some 0 }

def ws2 : Conc.Sys 1 :=
  { ws1 with pc := Function.update ws1.pc 0 .refreshing, started := ws1.started + 1 }

def ws3 : Conc.Sys 1 :=
  { ws2 with pc := Function.update ws2.pc 0 .done, lock := none,
             cache := Src.refreshedCache c2cfg 0 wAcq }

end Fix

/-
Theorems.
-/

set_option maxRecDepth 100000

namespace Conc

lemma lockInv_initSys {N : Nat} (c0 : Src.Cache) : LockInv (initSys N c0) := by
  intro i h
  rcases h with h | h <;> simp [initSys] at h

lemma lockInv_step {N : Nat} {acqs : Nat → Except PyErr Src.AcqOk}
    {cfg : Src.Config} {τ : ℚ → Prop} {s s' : Sys N}
    (hinv : LockInv s) (hs : SysStep acqs cfg τ s s') : LockInv s' := by
  cases hs with
  | acquire i hpc hlock =>
    intro j hj
    by_cases hij : j = i
    · subst hij
      rfl
    · have hj' : s.pc j = .check ∨ s.pc j = .refreshing := by
        simpa [Function.update_noteq hij] using hj
      have h1 := hinv j hj'
      rw [hlock] at h1
      exact absurd h1 (by simp)
  | hit i t ht hpc hlock hfp =>
    intro j hj
    by_cases hij : j = i
    · subst hij
      simp [Function.update_same] at hj
    · have hj' : s.pc j = .check ∨ s.pc j = .refreshing := by
        simpa [Function.update_noteq hij] using hj
      have h1 := hinv j hj'
      rw [hlock] at h1
      exact absurd (Option.some.inj h1).symm hij
  | miss i t ht hpc hlock hfp =>
    intro j hj
    by_cases hij : j = i
    · subst hij
      exact hlock
    · have hj' : s.pc j = .check ∨ s.pc j = .refreshing := by
        simpa [Function.update_noteq hij] using hj
      exact hinv j hj'
  | finishOk i t a ht hpc hlock hacq =>
    intro j hj
    by_cases hij : j = i
    · subst hij
      simp [Function.update_same] at hj
    · have hj' : s.pc j = .check ∨ s.pc j = .refreshing := by
        simpa [Function.update_noteq hij] using hj
      have h1 := hinv j hj'
      rw [hlock] at h1
      exact absurd (Option.some.inj h1).symm hij
  | finishErr i e hpc hlock hacq =>
    intro j hj
    by_cases hij : j = i
    · subst hij
      simp [Function.update_same] at hj
    · have hj' : s.pc j = .check ∨ s.pc j = .refreshing := by
        simpa [Function.update_noteq hij] using hj
      have h1 := hinv j hj'
      rw [hlock] at h1
      exact absurd (Option.some.inj h1).symm hij

lemma lockInv_reach {N : Nat} {acqs : Nat → Except PyErr Src.AcqOk}
    {cfg : Src.Config} {τ : ℚ → Prop} {c0 : Src.Cache} {s : Sys N}
    (h : Reach acqs cfg τ (initSys N c0) s) : LockInv s := by
  induction h with
  | refl => exact lockInv_initSys c0
  | step _ hs ih => exact lockInv_step ih hs

/-- Mutual exclusion: at most one thread is inside a handshake sequence. -/
lemma refreshing_unique {N : Nat} {acqs : Nat → Except PyErr Src.AcqOk}
    {cfg : Src.Config} {τ : ℚ → Prop} {c0 : Src.Cache} {s : Sys N}
    (h : Reach acqs cfg τ (initSys N c0) s) :
    ∀ i j, s.pc i = .refreshing → s.pc j = .refreshing → i = j := by
  intro i j hi hj
  have hinv := lockInv_reach h
  have h1 := hinv i (Or.inr hi)
  have h2 := hinv j (Or.inr hj)
  rw [h1] at h2
  exact Option.some.inj h2

end Conc

namespace Conc

lemma scInv_step {N : Nat} {acqs : Nat → Except PyErr Src.AcqOk}
    {cfg : Src.Config} {τ : ℚ → Prop} {c0 : Src.Cache} {s s' : Sys N}
    (hc0 : ∀ t, τ t → Src.fastPath c0 t = false)
    (hacq : ∀ k, ∃ a, acqs k = .ok a ∧ a.channels.pyTruthy = true)
    (htt : ∀ t t', τ t → τ t' → t' < t + cfg.ttl)
    (hlk : LockInv s) (hinv : ScInv τ c0 s) (hs : SysStep acqs cfg τ s s') :
    ScInv τ c0 s' := by
  cases hs with
  | acquire i hpc hlock =>
    rcases hinv with ⟨h0, hC, hP⟩ | ⟨h1, ⟨⟨i0, hr⟩, hC⟩ | ⟨hnr, hF⟩⟩
    · refine Or.inl ⟨h0, hC, ?_⟩
      intro j
      by_cases hij : j = i
      · subst hij
        right
        exact Function.update_same _ _ _
      · simp only [Function.update_noteq hij]
        exact hP j
    · refine Or.inr ⟨h1, Or.inl ⟨⟨i0, ?_⟩, hC⟩⟩
      have hi0 : i0 ≠ i := by
        intro hcontra
        rw [hcontra, hpc] at hr
        exact PC.noConfusion hr
      simp only [Function.update_noteq hi0]
      exact hr
    · refine Or.inr ⟨h1, Or.inr ⟨?_, hF⟩⟩
      intro j
      by_cases hij : j = i
      · subst hij
        simp only [Function.update_same]
        exact fun hcontra => PC.noConfusion hcontra
      · simp only [Function.update_noteq hij]
        exact hnr j
  | hit i t ht hpc hlock hfp =>
    rcases hinv with ⟨h0, hC, hP⟩ | ⟨h1, ⟨⟨i0, hr⟩, hC⟩ | ⟨hnr, hF⟩⟩
    · rw [hC] at hfp
      rw [hc0 t ht] at hfp
      exact Bool.noConfusion hfp
    · rw [hC] at hfp
      rw [hc0 t ht] at hfp
      exact Bool.noConfusion hfp
    · refine Or.inr ⟨h1, Or.inr ⟨?_, hF⟩⟩
      intro j
      by_cases hij : j = i
      · subst hij
        simp only [Function.update_same]
        exact fun hcontra => PC.noConfusion hcontra
      · simp only [Function.update_noteq hij]
        exact hnr j
  | miss i t ht hpc hlock hfp =>
    rcases hinv with ⟨h0, hC, hP⟩ | ⟨h1, ⟨⟨i0, hr⟩, hC⟩ | ⟨hnr, hF⟩⟩
    · refine Or.inr ⟨by rw [h0], Or.inl ⟨⟨i, ?_⟩, hC⟩⟩
      exact Function.update_same _ _ _
    · exfalso
      have hl0 := hlk i0 (Or.inr hr)
      rw [hlock] at hl0
      have : i = i0 := Option.some.inj hl0
      rw [this, hr] at hpc
      exact PC.noConfusion hpc
    · exfalso
      rw [hF t ht] at hfp
      exact Bool.noConfusion hfp
  | finishOk i t a ht hpc hlock hacqk =>
    rcases hinv with ⟨h0, hC, hP⟩ | ⟨h1, ⟨⟨i0, hr⟩, hC⟩ | ⟨hnr, hF⟩⟩
    · exfalso
      rcases hP i with h | h <;> rw [hpc] at h <;> exact PC.noConfusion h
    · refine Or.inr ⟨h1, Or.inr ⟨?_, ?_⟩⟩
      · intro j
        by_cases hij : j = i
        · subst hij
          simp only [Function.update_same]
          exact fun hcontra => PC.noConfusion hcontra
        · simp only [Function.update_noteq hij]
          intro hcontra
          have hl0 := hlk j (Or.inr hcontra)
          rw [hlock] at hl0
          exact hij (Option.some.inj hl0).symm
      · obtain ⟨a', ha', htr⟩ := hacq (s.started - 1)
        rw [ha'] at hacqk
        have haa : a' = a := Except.ok.inj hacqk
        intro t' ht'
        simp only [Src.fastPath, Src.refreshedCache]
        rw [← haa, htr]
        simp only [Bool.true_and]
        exact decide_eq_true (htt t t' ht ht')
    · exfalso
      exact hnr i hpc
  | finishErr i e hpc hlock hacqk =>
    rcases hinv with ⟨h0, hC, hP⟩ | ⟨h1, ⟨⟨i0, hr⟩, hC⟩ | ⟨hnr, hF⟩⟩
    · exfalso
      rcases hP i with h | h <;> rw [hpc] at h <;> exact PC.noConfusion h
    · exfalso
      obtain ⟨a', ha', htr⟩ := hacq (s.started - 1)
      rw [ha'] at hacqk
      exact Except.noConfusion hacqk
    · exfalso
      exact hnr i hpc

lemma scInv_reach {N : Nat} {acqs : Nat → Except PyErr Src.AcqOk}
    {cfg : Src.Config} {τ : ℚ → Prop} {c0 : Src.Cache} {s : Sys N}
    (hc0 : ∀ t, τ t → Src.fastPath c0 t = false)
    (hacq : ∀ k, ∃ a, acqs k = .ok a ∧ a.channels.pyTruthy = true)
    (htt : ∀ t t', τ t → τ t' → t' < t + cfg.ttl)
    (h : Reach acqs cfg τ (initSys N c0) s) : ScInv τ c0 s := by
  induction h with
  | refl => exact Or.inl ⟨rfl, rfl, fun i => Or.inl rfl⟩
  | step hr hs ih => exact scInv_step hc0 hacq htt (lockInv_reach hr) ih hs

end Conc

namespace Conc

/-- In a terminal burst state with at least one caller, exactly one
handshake has run. -/
lemma scInv_terminal {N : Nat} {τ : ℚ → Prop} {c0 : Src.Cache} {s : Sys N}
    (hinv : ScInv τ c0 s) (hdone : ∀ i, s.pc i = .done) (hN : 0 < N) :
    s.started = 1 := by
  rcases hinv with ⟨h0, hC, hP⟩ | ⟨h1, _⟩
  · exfalso
    rcases hP ⟨0, hN⟩ with h | h <;> rw [hdone ⟨0, hN⟩] at h <;> exact PC.noConfusion h
  · exact h1

end Conc

/-- Claim C2 (amended): under the global lock, at most one handshake
sequence is in flight at any time, in every reachable interleaving; and
when the cache starts empty/expired for the whole burst and every
acquisition succeeds with a nonempty (truthy) channel list within one TTL
window, a burst of N ≥ 1 concurrent callers runs exactly one handshake
sequence.  (The original claim, unconditional "exactly one", fails when
the acquired catalog is empty — see the counterexample.) -/
theorem c2_one_handshake_in_flight :
    (∀ (N : Nat) (acqs : Nat → Except PyErr Src.AcqOk) (cfg : Src.Config)
        (τ : ℚ → Prop) (c0 : Src.Cache) (s : Conc.Sys N),
        Conc.Reach acqs cfg τ (Conc.initSys N c0) s →
        ∀ i j, s.pc i = Conc.PC.refreshing → s.pc j = Conc.PC.refreshing → i = j)
    ∧ (∀ (N : Nat) (acqs : Nat → Except PyErr Src.AcqOk) (cfg : Src.Config)
        (τ : ℚ → Prop) (c0 : Src.Cache) (s : Conc.Sys N),
        (∀ t, τ t → Src.fastPath c0 t = false) →
        (∀ k, ∃ a, acqs k = .ok a ∧ a.channels.pyTruthy = true) →
        (∀ t t', τ t → τ t' → t' < t + cfg.ttl) →
        Conc.Reach acqs cfg τ (Conc.initSys N c0) s →
        (∀ i, s.pc i = Conc.PC.done) → 0 < N → s.started = 1) := by
  constructor
  · intro N acqs cfg τ c0 s h
    exact Conc.refreshing_unique h
  · intro N acqs cfg τ c0 s hc0 hacq htt h hdone hN
    exact Conc.scInv_terminal (Conc.scInv_reach hc0 hacq htt h) hdone hN

/-- Witness for C2: a concrete one-caller burst over the empty cache with
a nonempty acquired catalog runs exactly one handshake. -/
theorem c2_one_handshake_witness : Fix.ws3.started = 1 := by
  have h1 : Conc.SysStep Fix.wAcqs Fix.c2cfg Fix.wTau Fix.ws0 Fix.ws1 :=
    Conc.SysStep.acquire 0 rfl rfl
  have h2 : Conc.SysStep Fix.wAcqs Fix.c2cfg Fix.wTau Fix.ws1 Fix.ws2 :=
    Conc.SysStep.miss 0 0 (by constructor <;> norm_num) rfl rfl rfl
  have h3 : Conc.SysStep Fix.wAcqs Fix.c2cfg Fix.wTau Fix.ws2 Fix.ws3 :=
    Conc.SysStep.finishOk 0 0 Fix.wAcq (by constructor <;> norm_num) rfl rfl rfl
  have hr : Conc.Reach Fix.wAcqs Fix.c2cfg Fix.wTau (Conc.initSys 1 Src.initialCache) Fix.ws3 :=
    Conc.Reach.step (Conc.Reach.step (Conc.Reach.step Conc.Reach.refl h1) h2) h3
  exact c2_one_handshake_in_flight.2 1 Fix.wAcqs Fix.c2cfg Fix.wTau Src.initialCache Fix.ws3
    (fun t _ => rfl) (fun k => ⟨Fix.wAcq, rfl, rfl⟩)
    (by
      intro t t' ht ht'
      have h300 : t' < 300 := ht'.2
      have h0 : 0 ≤ t := ht.1
      show t' < t + (300 : ℚ)
      linarith)
    hr (by decide) (by norm_num)

/-- Counterexample for C2: with two concurrent callers over the empty
cache and acquisitions that succeed but return an empty catalog, a
reachable terminal interleaving runs two handshake sequences, not one. -/
theorem c2_two_handshakes_cex :
    Conc.Reach Fix.c2acqs Fix.c2cfg (fun _ => True)
      (Conc.initSys 2 Src.initialCache) Fix.c2s6 ∧
    Fix.c2s6.pc 0 = Conc.PC.done ∧ Fix.c2s6.pc 1 = Conc.PC.done ∧
    Fix.c2s6.started = 2 := by
  have h1 : Conc.SysStep Fix.c2acqs Fix.c2cfg (fun _ => True) Fix.c2s0 Fix.c2s1 :=
    Conc.SysStep.acquire 0 rfl rfl
  have h2 : Conc.SysStep Fix.c2acqs Fix.c2cfg (fun _ => True) Fix.c2s1 Fix.c2s2 :=
    Conc.SysStep.miss 0 0 trivial rfl rfl rfl
  have h3 : Conc.SysStep Fix.c2acqs Fix.c2cfg (fun _ => True) Fix.c2s2 Fix.c2s3 :=
    Conc.SysStep.finishOk 0 0 Fix.c2acq trivial rfl rfl rfl
  have h4 : Conc.SysStep Fix.c2acqs Fix.c2cfg (fun _ => True) Fix.c2s3 Fix.c2s4 :=
    Conc.SysStep.acquire 1 rfl rfl
  have h5 : Conc.SysStep Fix.c2acqs Fix.c2cfg (fun _ => True) Fix.c2s4 Fix.c2s5 :=
    Conc.SysStep.miss 1 1 trivial rfl rfl rfl
  have h6 : Conc.SysStep Fix.c2acqs Fix.c2cfg (fun _ => True) Fix.c2s5 Fix.c2s6 :=
    Conc.SysStep.finishOk 1 1 Fix.c2acq trivial rfl rfl rfl
  refine ⟨?_, rfl, rfl, rfl⟩
  exact Conc.Reach.step (Conc.Reach.step (Conc.Reach.step (Conc.Reach.step
    (Conc.Reach.step (Conc.Reach.step Conc.Reach.refl h1) h2) h3) h4) h5) h6

/-- Claim C1 (amended): after a successful refresh that cached a truthy
(nonempty) channel list, every `ensure_cache` call before the expiry
timestamp returns with the cache unchanged and performs zero upstream
requests.  (The original claim extends this to an empty cached catalog,
which the line-116 truthiness test defeats — see the counterexample.) -/
theorem c1_fresh_nonempty_cache_no_network (cfg : Src.Config) (c : Src.Cache)
    (t1 t2 : ℚ) (env : Src.Env) (hch : c.channels.pyTruthy = true)
    (ht : t1 < c.expires) :
    Src.ensure_cache cfg c t1 t2 env = (c, .ok (), 0) := by
  have hfp : Src.fastPath c t1 = true := by
    unfold Src.fastPath
    rw [hch, Bool.true_and]
    exact decide_eq_true ht
  unfold Src.ensure_cache
  rw [hfp]
  rfl

/-- Witness for C1: a populated cache with one channel, queried before its
expiry, is returned unchanged with zero upstream requests. -/
theorem c1_witness :
    Src.ensure_cache Fix.cfg0 Fix.cW 1 1 Fix.envEmpty = (Fix.cW, .ok (), 0) :=
  c1_fresh_nonempty_cache_no_network Fix.cfg0 Fix.cW 1 1 Fix.envEmpty rfl (by norm_num [Fix.cW])

/-- Counterexample for C1: a refresh that succeeds with an empty catalog
populates the cache (success, channels `[]`, expiry 300 in the future),
yet the very next call, at time 1 well before expiry, re-runs the whole
acquisition — 3 upstream requests instead of 0. -/
theorem c1_empty_catalog_defeats_fast_path_cex :
    (Src.ensure_cache Fix.cfg0 Src.initialCache 0 0 Fix.envEmpty).2.1 = .ok () ∧
    (Src.ensure_cache Fix.cfg0 Src.initialCache 0 0 Fix.envEmpty).1.channels = JValue.arr [] ∧
    (Src.ensure_cache Fix.cfg0 Src.initialCache 0 0 Fix.envEmpty).1.expires = (0 : ℚ) + 300 ∧
    ((1 : ℚ) < (0 : ℚ) + 300) ∧
    (Src.ensure_cache Fix.cfg0
        (Src.ensure_cache Fix.cfg0 Src.initialCache 0 0 Fix.envEmpty).1 1 1 Fix.envEmpty).2.2 = 3 :=
  ⟨rfl, rfl, rfl, by norm_num, rfl⟩

/-- Case analysis of one `ensure_cache` call: either the cache is left
untouched, or it is wholly replaced by the data of this call's successful
acquisition. -/
lemma ensure_cache_result_cases (cfg : Src.Config) (c : Src.Cache) (t1 t2 : ℚ)
    (env : Src.Env) :
    (Src.ensure_cache cfg c t1 t2 env).1 = c ∨
    ∃ (base pname : String) (cookies hdrs : List (String × String)) (ch : JValue),
      Src.normalize_url_and_name cfg.baseUrl = .ok (base, pname) ∧
      (Src.init_portal_session_and_channels base cfg.mac cfg.portalType env).2 =
        .ok (cookies, hdrs, ch) ∧
      (Src.ensure_cache cfg c t1 t2 env).1 =
        ⟨some cookies, some hdrs, ch, some pname, t2 + cfg.ttl⟩ := by
  by_cases hfp : Src.fastPath c t1
  · left
    unfold Src.ensure_cache
    simp [hfp]
  · cases hn : Src.normalize_url_and_name cfg.baseUrl with
    | error e' =>
      left
      unfold Src.ensure_cache
      simp [hfp, hn]
    | ok p =>
      obtain ⟨base, pname⟩ := p
      rcases hi : Src.init_portal_session_and_channels base cfg.mac cfg.portalType env
        with ⟨tr, res⟩
      cases res with
      | error e' =>
        left
        unfold Src.ensure_cache
        simp [hfp, hn, hi]
      | ok v =>
        obtain ⟨cookies, hdrs, ch⟩ := v
        right
        refine ⟨base, pname, cookies, hdrs, ch, rfl, ?_, ?_⟩
        · rw [hi]
        · unfold Src.ensure_cache
          simp [hfp, hn, hi, Src.refreshedCache]

/-- Claim C3: if the acquisition protocol fails during a refresh, the
error propagates and every cache field is exactly as before the call; and
every reachable cache state is either the empty initial state or wholly
populated from one successful acquisition generation. -/
theorem c3_failure_atomicity (cfg : Src.Config) :
    (∀ (c : Src.Cache) (t1 t2 : ℚ) (env : Src.Env) (e : PyErr),
        (Src.ensure_cache cfg c t1 t2 env).2.1 = .error e →
        (Src.ensure_cache cfg c t1 t2 env).1 = c)
    ∧ (∀ c : Src.Cache, Src.CacheReachable cfg c →
        c = Src.initialCache ∨
        ∃ (base pname : String) (env : Src.Env)
          (cookies hdrs : List (String × String)) (ch : JValue) (t : ℚ),
          Src.normalize_url_and_name cfg.baseUrl = .ok (base, pname) ∧
          (Src.init_portal_session_and_channels base cfg.mac cfg.portalType env).2 =
            .ok (cookies, hdrs, ch) ∧
          c = ⟨some cookies, some hdrs, ch, some pname, t + cfg.ttl⟩) := by
  constructor
  · intro c t1 t2 env e h
    unfold Src.ensure_cache at h ⊢
    by_cases hfp : Src.fastPath c t1
    · simp [hfp] at h
    · simp only [hfp, Bool.false_eq_true, if_false] at h ⊢
      cases hn : Src.normalize_url_and_name cfg.baseUrl with
      | error e' => simp [hn] at h ⊢
      | ok p =>
        obtain ⟨base, pname⟩ := p
        simp only [hn] at h ⊢
        rcases hi : Src.init_portal_session_and_channels base cfg.mac cfg.portalType env
          with ⟨tr, res⟩
        cases res with
        | error e' => simp [hi] at h ⊢
        | ok v => simp [hi] at h
  · intro c hr
    induction hr with
    | base => exact Or.inl rfl
    | step c t1 t2 env hc ih =>
      rcases ensure_cache_result_cases cfg c t1 t2 env with hsame |
        ⟨base, pname, cookies, hdrs, ch, hn, hi, hres⟩
      · rw [hsame]
        exact ih
      · rw [hres]
        right
        exact ⟨base, pname, env, cookies, hdrs, ch, t2, hn, hi, rfl⟩

/-- Witness for C3: a refresh against a portal whose handshake returns
HTTP 500 propagates the handshake error and leaves the cache unchanged. -/
theorem c3_witness :
    (Src.ensure_cache Fix.cfg0 Src.initialCache 0 0 Fix.envFail).1 = Src.initialCache :=
  (c3_failure_atomicity Fix.cfg0).1 Src.initialCache 0 0 Fix.envFail
    (.runtimeError "Handshake failed or token missing") rfl

/-- Reduction of the acquisition through a successful handshake carrying a
nonempty token `t`: the remainder is the profile/catalog tail. -/
lemma init_after_good_handshake (base mac ptype txt : String) (t : String)
    (ht : t.isEmpty = false) (r2 r3 : HttpOutcome) :
    Src.init_portal_session_and_channels base mac ptype
      ⟨.resp ⟨200, txt, some (.obj [("js", .obj [("token", .str t)])])⟩, r2, r3⟩ =
    (let pfx := Src.pfxOf ptype
     let headers2 := Py.dictSet (Src.baseHeaders base pfx) "Authorization" ("Bearer " ++ t)
     let di := Src.generate_device_info mac
     let req1 : Request := ⟨.post,
       base ++ "/" ++ pfx ++ "/server/load.php?action=handshake&type=stb&token=&JsHttpRequest=1-xml",
       Src.baseHeaders base pfx, [("mac", mac)]⟩
     let req2 : Request := ⟨.get,
       base ++ "/" ++ pfx ++ "/server/load.php?type=stb&action=get_profile&sn=" ++ di.SNCUT ++
         "&device_id=" ++ di.Device_ID1 ++ "&device_id2=" ++ di.Device_ID1 ++
         "&signature=" ++ di.Signature ++ "&JsHttpRequest=1-xml",
       headers2, [("mac", mac)]⟩
     match r2 with
     | .exn => ([req1, req2], .error .transportError)
     | .resp r2' =>
       if !(decide (r2'.status < 400)) || !(Py.strContains r2'.text "js") then
         ([req1, req2], .error (.runtimeError "Profile validation failed"))
       else
         let req3 : Request := ⟨.get,
           base ++ "/" ++ pfx ++ "/server/load.php?type=itv&action=get_all_channels&JsHttpRequest=1-xml",
           headers2, [("mac", mac)]⟩
         match r3 with
         | .exn => ([req1, req2, req3], .error .transportError)
         | .resp r3' =>
           let dataE : Except PyErr JValue :=
             if r3'.status == 200 then
               match r3'.jsonBody with
               | none => .error .jsonDecodeError
               | some d => .ok d
             else .ok (.obj [])
           match dataE with
           | .error e => ([req1, req2, req3], .error e)
           | .ok data =>
             let chE : Except PyErr JValue :=
               match data with
               | .obj kvs =>
                 match (JValue.jLookup kvs "js").getD (.obj []) with
                 | .obj g => .ok ((JValue.jLookup g "data").getD (.arr []))
                 | _ => .error .attributeError
               | _ => .ok (.arr [])
             match chE with
             | .error e => ([req1, req2, req3], .error e)
             | .ok channels => ([req1, req2, req3], .ok ([("mac", mac)], headers2, channels))) := by
  unfold Src.init_portal_session_and_channels
  simp [ht, JValue.jLookup, JValue.pyTruthy, JValue.pyStr]

/-- Reduction of the acquisition through the fixture handshake and
profile responses: only the catalog step remains. -/
lemma init_after_good_profile (base mac ptype : String) (r3 : HttpOutcome) :
    Src.init_portal_session_and_channels base mac ptype ⟨Fix.r1good, Fix.r2good, r3⟩ =
    (let pfx := Src.pfxOf ptype
     let headers2 := Py.dictSet (Src.baseHeaders base pfx) "Authorization" "Bearer T1"
     let di := Src.generate_device_info mac
     let req1 : Request := ⟨.post,
       base ++ "/" ++ pfx ++ "/server/load.php?action=handshake&type=stb&token=&JsHttpRequest=1-xml",
       Src.baseHeaders base pfx, [("mac", mac)]⟩
     let req2 : Request := ⟨.get,
       base ++ "/" ++ pfx ++ "/server/load.php?type=stb&action=get_profile&sn=" ++ di.SNCUT ++
         "&device_id=" ++ di.Device_ID1 ++ "&device_id2=" ++ di.Device_ID1 ++
         "&signature=" ++ di.Signature ++ "&JsHttpRequest=1-xml",
       headers2, [("mac", mac)]⟩
     let req3 : Request := ⟨.get,
       base ++ "/" ++ pfx ++ "/server/load.php?type=itv&action=get_all_channels&JsHttpRequest=1-xml",
       headers2, [("mac", mac)]⟩
     match r3 with
     | .exn => ([req1, req2, req3], .error .transportError)
     | .resp r3' =>
       let dataE : Except PyErr JValue :=
         if r3'.status == 200 then
           match r3'.jsonBody with
           | none => .error .jsonDecodeError
           | some d => .ok d
         else .ok (.obj [])
       match dataE with
       | .error e => ([req1, req2, req3], .error e)
       | .ok data =>
         let chE : Except PyErr JValue :=
           match data with
           | .obj kvs =>
             match (JValue.jLookup kvs "js").getD (.obj []) with
             | .obj g => .ok ((JValue.jLookup g "data").getD (.arr []))
             | _ => .error .attributeError
           | _ => .ok (.arr [])
         match chE with
         | .error e => ([req1, req2, req3], .error e)
         | .ok channels => ([req1, req2, req3], .ok ([("mac", mac)], headers2, channels))) := by
  cases r3 <;> rfl

/-- Claim C4 (amended): the catalog step tolerates a non-200 status, a
non-dict JSON body, and a missing `js` or `data` field, yielding an empty
(or verbatim `data`) channel list; but a 200 response whose body is not
valid JSON, or whose `js` field is not a dict, raises and fails the whole
acquisition.  (The original "never fails" claim is refuted by the
counterexample.) -/
theorem c4_catalog_outcome_characterization (base mac ptype txt : String)
    (st : Nat) (j : Option JValue) :
    (st ≠ 200 → ∃ ck hd, (Src.init_portal_session_and_channels base mac ptype
        ⟨Fix.r1good, Fix.r2good, .resp ⟨st, txt, j⟩⟩).2 = .ok (ck, hd, .arr []))
    ∧ (st = 200 → j = none → (Src.init_portal_session_and_channels base mac ptype
        ⟨Fix.r1good, Fix.r2good, .resp ⟨st, txt, j⟩⟩).2 = .error .jsonDecodeError)
    ∧ (∀ d, st = 200 → j = some d → d.isObj = false →
        ∃ ck hd, (Src.init_portal_session_and_channels base mac ptype
          ⟨Fix.r1good, Fix.r2good, .resp ⟨st, txt, j⟩⟩).2 = .ok (ck, hd, .arr []))
    ∧ (∀ kvs, st = 200 → j = some (.obj kvs) → JValue.jLookup kvs "js" = none →
        ∃ ck hd, (Src.init_portal_session_and_channels base mac ptype
          ⟨Fix.r1good, Fix.r2good, .resp ⟨st, txt, j⟩⟩).2 = .ok (ck, hd, .arr []))
    ∧ (∀ kvs g, st = 200 → j = some (.obj kvs) → JValue.jLookup kvs "js" = some g →
        g.isObj = false → (Src.init_portal_session_and_channels base mac ptype
          ⟨Fix.r1good, Fix.r2good, .resp ⟨st, txt, j⟩⟩).2 = .error .attributeError)
    ∧ (∀ kvs g, st = 200 → j = some (.obj kvs) → JValue.jLookup kvs "js" = some (.obj g) →
        ∃ ck hd, (Src.init_portal_session_and_channels base mac ptype
          ⟨Fix.r1good, Fix.r2good, .resp ⟨st, txt, j⟩⟩).2 =
            .ok (ck, hd, (JValue.jLookup g "data").getD (.arr []))) := by
  refine ⟨?_, ?_, ?_, ?_, ?_, ?_⟩
  · intro hst
    rw [init_after_good_profile]
    refine ⟨[("mac", mac)],
      Py.dictSet (Src.baseHeaders base (Src.pfxOf ptype)) "Authorization" "Bearer T1", ?_⟩
    simp [hst, JValue.jLookup]
  · intro hst hj
    subst hst
    subst hj
    rw [init_after_good_profile]
    rfl
  · intro d hst hj hd
    subst hst
    subst hj
    rw [init_after_good_profile]
    refine ⟨[("mac", mac)],
      Py.dictSet (Src.baseHeaders base (Src.pfxOf ptype)) "Authorization" "Bearer T1", ?_⟩
    cases d <;> simp_all [JValue.isObj]
  · intro kvs hst hj hjs
    subst hst
    subst hj
    rw [init_after_good_profile]
    refine ⟨[("mac", mac)],
      Py.dictSet (Src.baseHeaders base (Src.pfxOf ptype)) "Authorization" "Bearer T1", ?_⟩
    simp only [JValue.jLookup] at hjs
    simp [JValue.jLookup, hjs]
  · intro kvs g hst hj hjs hg
    subst hst
    subst hj
    rw [init_after_good_profile]
    simp only [beq_self_eq_true, ite_true]
    rw [hjs]
    simp only [Option.getD_some]
    cases g with
    | obj kvs2 => simp [JValue.isObj] at hg
    | null => rfl
    | bool b => rfl
    | num n => rfl
    | str s => rfl
    | arr xs => rfl
  · intro kvs g hst hj hjs
    subst hst
    subst hj
    rw [init_after_good_profile]
    refine ⟨[("mac", mac)],
      Py.dictSet (Src.baseHeaders base (Src.pfxOf ptype)) "Authorization" "Bearer T1", ?_⟩
    simp only [JValue.jLookup] at hjs
    simp [hjs, JValue.jLookup]

/-- Witness for C4: a 200 catalog response whose `js` field is the number
0 (not a dict) fails the acquisition with an `AttributeError`. -/
theorem c4_witness :
    (Src.init_portal_session_and_channels "http://h" "m" "1"
      ⟨Fix.r1good, Fix.r2good, .resp ⟨200, "", some (.obj [("js", .num 0)])⟩⟩).2 =
      .error .attributeError :=
  (c4_catalog_outcome_characterization "http://h" "m" "1" ""
    200 (some (.obj [("js", .num 0)]))).2.2.2.2.1 [("js", .num 0)] (.num 0) rfl rfl rfl rfl

/-- Counterexample for C4: a 200 catalog response with an unparseable
body (so `resp.json()` raises) fails the acquisition instead of yielding
an empty catalog, contradicting "never fails the refresh". -/
theorem c4_malformed_catalog_fails_cex :
    (Src.init_portal_session_and_channels "http://h" "m" "1"
      ⟨Fix.r1good, Fix.r2good, .resp ⟨200, "not json", none⟩⟩).2 =
      .error .jsonDecodeError := by
  rw [init_after_good_profile]
  rfl

/-- When the profile check passes, the acquisition never raises the
profile-validation error: the remaining catalog step raises only
transport, JSON-decoding or attribute errors. -/
lemma init_pass_no_profile_error (base mac ptype : String) (r : HttpResponse)
    (r3 : HttpOutcome) (h1 : r.status < 400)
    (h2 : Py.strContains r.text "js" = true) :
    (Src.init_portal_session_and_channels base mac ptype ⟨Fix.r1good, .resp r, r3⟩).2 ≠
      .error (.runtimeError "Profile validation failed") := by
  rw [show Fix.r1good =
    HttpOutcome.resp ⟨200, "", some (.obj [("js", .obj [("token", .str "T1")])])⟩ from rfl]
  rw [init_after_good_handshake base mac ptype "" "T1" rfl (.resp r) r3]
  dsimp only
  rw [if_neg (by simp [h1, h2])]
  cases r3 with
  | exn => simp
  | resp r3' =>
    by_cases hs : (r3'.status == 200) = true
    · cases hjb : r3'.jsonBody with
      | none => simp [hs, hjb]
      | some d =>
        cases d with
        | obj kvs =>
          simp only [hs, hjb, ite_true]
          cases hv : (JValue.jLookup kvs "js").getD (JValue.obj []) <;> simp [hv]
        | null => simp [hs, hjb]
        | bool b => simp [hs, hjb]
        | num n => simp [hs, hjb]
        | str s => simp [hs, hjb]
        | arr xs => simp [hs, hjb]
    · simp [hs, JValue.jLookup]

/-- Claim C5 (amended): given a successful handshake, the profile step
fails with the protocol error "Profile validation failed" precisely when
the response status is not ok (≥ 400) or the two-character substring
`js` does not occur in the raw response text — a substring test, not a
JSON-key test; when it passes, the response content is otherwise
discarded.  (The original claim — failure iff the JSON body lacks a `js`
key — is refuted by the counterexample.) -/
theorem c5_profile_failure_characterization (base mac ptype : String)
    (r : HttpResponse) (r3 : HttpOutcome) :
    ((Src.init_portal_session_and_channels base mac ptype ⟨Fix.r1good, .resp r, r3⟩).2 =
        .error (.runtimeError "Profile validation failed"))
    ↔ (400 ≤ r.status ∨ Py.strContains r.text "js" = false) := by
  by_cases hcond : (!(decide (r.status < 400)) || !(Py.strContains r.text "js")) = true
  · apply iff_of_true
    · rw [show Fix.r1good =
        HttpOutcome.resp ⟨200, "", some (.obj [("js", .obj [("token", .str "T1")])])⟩ from rfl]
      rw [init_after_good_handshake base mac ptype "" "T1" rfl (.resp r) r3]
      dsimp only
      rw [if_pos hcond]
    · simp only [Bool.or_eq_true, Bool.not_eq_true', decide_eq_false_iff_not,
        Nat.not_lt, Bool.not_eq_true] at hcond
      simpa using hcond
  · simp only [Bool.or_eq_true, Bool.not_eq_true', decide_eq_false_iff_not, Nat.not_lt,
      Bool.not_eq_true, not_or] at hcond
    push_neg at hcond
    obtain ⟨h1, h2⟩ := hcond
    apply iff_of_false
    · exact init_pass_no_profile_error base mac ptype r r3 h1 (by simpa using h2)
    · push_neg
      refine ⟨by omega, by simpa using h2⟩

/-- Counterexample for C5: a 200 profile response whose body is the JSON
array `["ajs"]` — which has no `js` key (it is not even an object) but
contains the substring `js` — passes validation and the acquisition
succeeds, though the claim requires failure. -/
theorem c5_substring_pass_without_js_key_cex :
    ((Src.init_portal_session_and_channels "http://h" "m" "1"
        ⟨Fix.r1good, .resp ⟨200, "[\"ajs\"]", some (.arr [.str "ajs"])⟩, Fix.r3empty⟩).2).isOk
      = true ∧
    Py.strContains "[\"ajs\"]" "js" = true ∧
    JValue.isObj (.arr [.str "ajs"]) = false := ⟨rfl, rfl, rfl⟩

/-- Looking up `Authorization` after line 93's dict assignment. -/
lemma dictGet_auth (base pfx v : String) :
    Py.dictGet (Py.dictSet (Src.baseHeaders base pfx) "Authorization" v) "Authorization" =
      some v := by
  simp [Src.baseHeaders, Py.dictSet, Py.dictGet]

/-- Claim C6 (amended): the handshake request is issued as an HTTP POST —
not GET as claimed — to
`{base}/{prefix}/server/load.php?action=handshake&type=stb&token=&JsHttpRequest=1-xml`
with the fixed set-top-box headers and the `mac` cookie; and the bearer
token is extracted from the `js.token` field of the JSON response and
attached as `Authorization: Bearer <token>` on the subsequent request. -/
theorem c6_handshake_request_shape :
    (∀ (base mac ptype : String) (env : Src.Env),
      (Src.init_portal_session_and_channels base mac ptype env).1.head? =
        some ⟨.post,
          base ++ "/" ++ Src.pfxOf ptype ++
            "/server/load.php?action=handshake&type=stb&token=&JsHttpRequest=1-xml",
          Src.baseHeaders base (Src.pfxOf ptype), [("mac", mac)]⟩)
    ∧ (∀ (base mac ptype txt t : String), t.isEmpty = false →
        ∀ (r2 r3 : HttpOutcome),
        ((Src.init_portal_session_and_channels base mac ptype
            ⟨.resp ⟨200, txt, some (.obj [("js", .obj [("token", .str t)])])⟩, r2, r3⟩).1.get? 1).map
          (fun rq => Py.dictGet rq.headers "Authorization") =
          some (some ("Bearer " ++ t))) := by
  constructor
  · intro base mac ptype env
    obtain ⟨eh, ep, ec⟩ := env
    cases eh with
    | exn => rfl
    | resp r1 =>
      unfold Src.init_portal_session_and_channels
      dsimp only
      repeat' (first | rfl | split)
  · intro base mac ptype txt t ht r2 r3
    have hA := congrArg some (dictGet_auth base (Src.pfxOf ptype) ("Bearer " ++ t))
    rw [init_after_good_handshake base mac ptype txt t ht r2 r3]
    dsimp only
    cases r2 with
    | exn => exact hA
    | resp r2' =>
      dsimp only
      by_cases hcnd : (!(decide (r2'.status < 400)) || !(Py.strContains r2'.text "js")) = true
      · rw [if_pos hcnd]
        exact hA
      · rw [if_neg hcnd]
        cases r3 with
        | exn => exact hA
        | resp r3' =>
          dsimp only
          by_cases hs : (r3'.status == 200) = true
          · cases hjb : r3'.jsonBody with
            | none =>
              rw [if_pos hs]
              exact hA
            | some d =>
              rw [if_pos hs]
              dsimp only
              cases d with
              | obj kvs =>
                dsimp only
                cases hv : (JValue.jLookup kvs "js").getD (JValue.obj []) <;> exact hA
              | null => exact hA
              | bool b => exact hA
              | num n => exact hA
              | str s => exact hA
              | arr xs => exact hA
          · rw [if_neg hs]
            exact hA

/-- Witness for C6: against a concrete portal the second request exists
and carries the bearer token extracted from the handshake. -/
theorem c6_witness :
    ((Src.init_portal_session_and_channels "http://h" "m" "1"
        ⟨.resp ⟨200, "", some (.obj [("js", .obj [("token", .str "T1")])])⟩,
         Fix.r2good, Fix.r3empty⟩).1.get? 1).map
      (fun rq => Py.dictGet rq.headers "Authorization") = some (some ("Bearer " ++ "T1")) :=
  c6_handshake_request_shape.2 "http://h" "m" "1" "" "T1" rfl Fix.r2good Fix.r3empty

/-- Counterexample for C6: the handshake request's method is POST, and
POST is not GET as the claim states. -/
theorem c6_handshake_method_is_post_cex :
    ((Src.init_portal_session_and_channels "http://h" "m" "1" Fix.envEmpty).1.head?.map
      (fun rq => rq.method)) = some Method.post ∧ Method.post ≠ Method.get :=
  ⟨rfl, by decide⟩

/-- Claim C7 (amended): the profile request carries the truncated serial
as `sn` and the signature digest of truncated-serial+MAC, but both
`device_id` and `device_id2` carry the same value — the uppercase hex
256-bit digest of the raw MAC; the digest of the truncated serial
(`Device_ID2`) is computed and then never sent. -/
theorem c7_profile_query_parameters (base mac ptype txt t : String)
    (ht : t.isEmpty = false) (r2 r3 : HttpOutcome) :
    ((Src.init_portal_session_and_channels base mac ptype
        ⟨.resp ⟨200, txt, some (.obj [("js", .obj [("token", .str t)])])⟩, r2, r3⟩).1.get? 1).map
        (fun rq => rq.url) =
      some (base ++ "/" ++ Src.pfxOf ptype ++ "/server/load.php?type=stb&action=get_profile&sn=" ++
        String.mk ((Py.pyUpper (Digest.md5Hex mac)).data.take 13) ++
        "&device_id=" ++ Py.pyUpper (Digest.sha256Hex mac) ++
        "&device_id2=" ++ Py.pyUpper (Digest.sha256Hex mac) ++
        "&signature=" ++ Py.pyUpper (Digest.sha256Hex
          (String.mk ((Py.pyUpper (Digest.md5Hex mac)).data.take 13) ++ mac)) ++
        "&JsHttpRequest=1-xml") := by
  rw [init_after_good_handshake base mac ptype txt t ht r2 r3]
  dsimp only
  cases r2 with
  | exn => rfl
  | resp r2' =>
    dsimp only
    by_cases hcnd : (!(decide (r2'.status < 400)) || !(Py.strContains r2'.text "js")) = true
    · rw [if_pos hcnd]
      rfl
    · rw [if_neg hcnd]
      cases r3 with
      | exn => rfl
      | resp r3' =>
        dsimp only
        by_cases hs : (r3'.status == 200) = true
        · cases hjb : r3'.jsonBody with
          | none =>
            rw [if_pos hs]
            rfl
          | some d =>
            rw [if_pos hs]
            dsimp only
            cases d with
            | obj kvs =>
              dsimp only
              cases hv : (JValue.jLookup kvs "js").getD (JValue.obj []) <;> rfl
            | null => rfl
            | bool b => rfl
            | num n => rfl
            | str s => rfl
            | arr xs => rfl
        · rw [if_neg hs]
          rfl

/-- Witness for C7: the profile request URL for the MAC `a`. -/
theorem c7_witness :
    ((Src.init_portal_session_and_channels "http://h" "a" "1"
        ⟨.resp ⟨200, "", some (.obj [("js", .obj [("token", .str "T1")])])⟩,
         Fix.r2good, Fix.r3empty⟩).1.get? 1).map (fun rq => rq.url) =
      some ("http://h" ++ "/" ++ Src.pfxOf "1" ++
        "/server/load.php?type=stb&action=get_profile&sn=" ++
        String.mk ((Py.pyUpper (Digest.md5Hex "a")).data.take 13) ++
        "&device_id=" ++ Py.pyUpper (Digest.sha256Hex "a") ++
        "&device_id2=" ++ Py.pyUpper (Digest.sha256Hex "a") ++
        "&signature=" ++ Py.pyUpper (Digest.sha256Hex
          (String.mk ((Py.pyUpper (Digest.md5Hex "a")).data.take 13) ++ "a")) ++
        "&JsHttpRequest=1-xml") :=
  c7_profile_query_parameters "http://h" "a" "1" "" "T1" rfl Fix.r2good Fix.r3empty

/-- Counterexample for C7: in the URL actually sent for MAC `a`, the
`device_id2` parameter equals `Device_ID1` (digest of the raw MAC), which
differs from `Device_ID2` (digest of the truncated serial) — refuting the
claim that `device_id2` carries the truncated-serial digest. -/
theorem c7_device_id2_not_truncated_serial_digest_cex :
    Spec.queryParam
      ((((Src.init_portal_session_and_channels "http://h" "a" "1"
          ⟨.resp ⟨200, "", some (.obj [("js", .obj [("token", .str "T1")])])⟩,
           Fix.r2good, Fix.r3empty⟩).1.get? 1).map (fun rq => rq.url)).getD "")
      "device_id2" = some (Src.generate_device_info "a").Device_ID1 ∧
    (Src.generate_device_info "a").Device_ID1 ≠ (Src.generate_device_info "a").Device_ID2 :=
  ⟨rfl, by decide⟩

/-- The loop never performs more attempts than its fuel allows. -/
lemma clLoop_count_le (atts : Nat → HttpOutcome) :
    ∀ (fuel i : Nat), (Src.clLoop atts i fuel).2 ≤ i + fuel := by
  intro fuel
  induction fuel with
  | zero =>
    intro i
    simp [Src.clLoop]
  | succ n ih =>
    intro i
    unfold Src.clLoop
    cases h : Src.linkAttempt (atts i) with
    | some s =>
      dsimp only
      omega
    | none =>
      dsimp only
      have h2 := ih (i + 1)
      omega

/-- With positive fuel the loop performs at least one attempt. -/
lemma clLoop_count_ge (atts : Nat → HttpOutcome) :
    ∀ (fuel i : Nat), 0 < fuel → i + 1 ≤ (Src.clLoop atts i fuel).2 := by
  intro fuel
  induction fuel with
  | zero =>
    intro i h
    omega
  | succ n ih =>
    intro i _
    unfold Src.clLoop
    cases h : Src.linkAttempt (atts i) with
    | some s =>
      dsimp only
      omega
    | none =>
      dsimp only
      cases n with
      | zero => simp [Src.clLoop]
      | succ m =>
        have h2 := ih (i + 1) (by omega)
        omega

/-- The loop body accepts an attempt exactly when `rawCmdOf` yields the
raw command string, and then returns it with every `ffrt ` occurrence
removed and surrounding whitespace stripped. -/
lemma linkAttempt_eq_rawCmdOf (o : HttpOutcome) :
    Src.linkAttempt o =
      (Src.rawCmdOf o).map (fun s => Py.pyStrip (Py.pyReplace s "ffrt " "")) := by
  cases o with
  | exn => rfl
  | resp r =>
    unfold Src.linkAttempt Src.rawCmdOf
    dsimp only
    by_cases hs : (r.status != 200) = true
    · rw [if_pos hs, if_pos hs]
      rfl
    · rw [if_neg hs, if_neg hs]
      cases hjb : r.jsonBody with
      | none => rfl
      | some d =>
        cases d with
        | obj kvs =>
          dsimp only
          cases hv : (JValue.jLookup kvs "js").getD (JValue.obj []) with
          | obj jkvs =>
            dsimp only
            cases hc : (JValue.jLookup jkvs "cmd").getD JValue.null with
            | str s =>
              dsimp only [JValue.pyTruthy]
              by_cases he : s.isEmpty = true
              · rw [he]
                rfl
              · rw [Bool.eq_false_iff.mpr he]
                rfl
            | null => rfl
            | bool b => cases b <;> rfl
            | num n =>
              dsimp only [JValue.pyTruthy]
              by_cases hn : (n != 0) = true
              · rw [hn]
                rfl
              · rw [Bool.eq_false_iff.mpr hn]
                rfl
            | arr xs => cases xs <;> rfl
            | obj kvs2 => cases kvs2 <;> rfl
          | null => rfl
          | bool b => rfl
          | num n => rfl
          | str s => rfl
          | arr xs => rfl
        | null => rfl
        | bool b => rfl
        | num n => rfl
        | str s => rfl
        | arr xs => rfl

/-- One failing attempt consumes one unit of fuel. -/
lemma clLoop_succ_none {atts : Nat → HttpOutcome} {i fuel : Nat}
    (h : Src.linkAttempt (atts i) = none) :
    Src.clLoop atts i (fuel + 1) = Src.clLoop atts (i + 1) fuel := by
  conv_lhs => rw [Src.clLoop]
  rw [h]

/-- A succeeding attempt returns immediately. -/
lemma clLoop_succ_some {atts : Nat → HttpOutcome} {i fuel : Nat} {s : String}
    (h : Src.linkAttempt (atts i) = some s) :
    Src.clLoop atts i (fuel + 1) = (some s, i + 1) := by
  unfold Src.clLoop
  rw [h]

/-- Claim C8 (amended): a negotiated command makes at most 3 upstream
attempts; when all 3 fail (transport error, non-200 status, or no usable
`cmd`), `create_link` returns `None` after exactly 3 attempts; on the
first attempt whose response carries a usable `cmd` string it returns
immediately — with every occurrence of `"ffrt "` removed and surrounding
whitespace stripped, not merely a leading marker stripped (see the
counterexample for the difference). -/
theorem c8_retry_semantics (base cmd ptype : String) (atts : Nat → HttpOutcome) :
    ((Src.create_link base cmd ptype atts 3).2 ≤ 3)
    ∧ ((∀ i, i < 3 → Src.linkAttempt (atts i) = none) →
        Src.create_link base cmd ptype atts 3 = (none, 3))
    ∧ (∀ i s, i < 3 → (∀ j, j < i → Src.linkAttempt (atts j) = none) →
        Src.rawCmdOf (atts i) = some s →
        Src.create_link base cmd ptype atts 3 =
          (some (Py.pyStrip (Py.pyReplace s "ffrt " "")), i + 1)) := by
  refine ⟨clLoop_count_le atts 3 0, ?_, ?_⟩
  · intro h
    show Src.clLoop atts 0 (2 + 1) = (none, 3)
    rw [clLoop_succ_none (h 0 (by omega))]
    show Src.clLoop atts 1 (1 + 1) = (none, 3)
    rw [clLoop_succ_none (h 1 (by omega))]
    show Src.clLoop atts 2 (0 + 1) = (none, 3)
    rw [clLoop_succ_none (h 2 (by omega))]
    rfl
  · intro i s hi hprev hraw
    have hatt : Src.linkAttempt (atts i) = some (Py.pyStrip (Py.pyReplace s "ffrt " "")) := by
      rw [linkAttempt_eq_rawCmdOf, hraw]
      rfl
    interval_cases i
    · show Src.clLoop atts 0 (2 + 1) = _
      rw [clLoop_succ_some hatt]
    · show Src.clLoop atts 0 (2 + 1) = _
      rw [clLoop_succ_none (hprev 0 (by omega))]
      show Src.clLoop atts 1 (1 + 1) = _
      rw [clLoop_succ_some hatt]
    · show Src.clLoop atts 0 (2 + 1) = _
      rw [clLoop_succ_none (hprev 0 (by omega))]
      show Src.clLoop atts 1 (1 + 1) = _
      rw [clLoop_succ_none (hprev 1 (by omega))]
      show Src.clLoop atts 2 (0 + 1) = _
      rw [clLoop_succ_some hatt]

/-- Witness for C8: when every upstream attempt raises, `create_link`
returns `None` after exactly 3 attempts. -/
theorem c8_witness :
    Src.create_link "http://h" "x" "1" (fun _ => HttpOutcome.exn) 3 = (none, 3) :=
  (c8_retry_semantics "http://h" "x" "1" (fun _ => HttpOutcome.exn)).2.1
    (fun _ _ => rfl)

/-- Counterexample for C8: a first-attempt response whose `cmd` is
`"ffrt http://x/ffrt y"` makes create_link return `"http://x/y"` (every
`"ffrt "` occurrence removed), not `"http://x/ffrt y"` (only the leading
marker stripped) as the claim states. -/
theorem c8_marker_replace_all_not_prefix_cex :
    Src.create_link "http://h" "x" "1"
      (fun _ => .resp ⟨200, "", some (.obj [("js", .obj [("cmd", .str "ffrt http://x/ffrt y")])])⟩) 3 =
      (some "http://x/y", 1) ∧
    Spec.stripMarkerPrefix "ffrt http://x/ffrt y" = "http://x/ffrt y" ∧
    ("http://x/y" : String) ≠ "http://x/ffrt y" :=
  ⟨rfl, rfl, by decide⟩

/-- A `String.mk` is nonempty exactly when its character list is. -/
lemma mk_isEmpty_false_iff (l : List Char) : (String.mk l).isEmpty = false ↔ l ≠ [] := by
  constructor
  · intro h hnil
    subst hnil
    exact absurd h (by decide)
  · intro hl
    rw [Bool.eq_false_iff]
    intro he
    have h2 : String.mk l = "" := (String.isEmpty_iff _).mp he
    exact hl (by simpa using congrArg String.data h2)

/-- A successful prefix test decomposes the list. -/
lemma listStartsWith_eq_append {s p : List Char} (h : Py.listStartsWith s p = true) :
    s = p ++ s.drop p.length := by
  induction p generalizing s with
  | nil => simp
  | cons b pt ih =>
    cases s with
    | nil => simp [Py.listStartsWith] at h
    | cons a st =>
      simp only [Py.listStartsWith, Bool.and_eq_true, beq_iff_eq] at h
      obtain ⟨hab, hsw⟩ := h
      subst hab
      simpa using ih hsw

/-- Replacing occurrences of a pattern that ends in a character other
than the last character of `s` (with the empty replacement) preserves the
last character. -/
lemma replaceAll_getLast (pat : List Char) {pc : Char}
    (hpc : pat.getLast? = some pc) {c : Char} (hc : c ≠ pc) :
    ∀ (fuel : Nat) (s : List Char), s.getLast? = some c →
      (Py.replaceAllAux pat [] fuel s).getLast? = some c := by
  intro fuel
  induction fuel with
  | zero =>
    intro s hs
    cases s with
    | nil => simp at hs
    | cons a t => simpa [Py.replaceAllAux] using hs
  | succ n ih =>
    intro s hs
    cases s with
    | nil => simp at hs
    | cons a t =>
      rw [Py.replaceAllAux]
      by_cases hm : (!pat.isEmpty && Py.listStartsWith (a :: t) pat) = true
      · rw [if_pos hm]
        simp only [List.nil_append]
        obtain ⟨hpe, hsw⟩ := Bool.and_eq_true_iff.mp hm
        have hdec := listStartsWith_eq_append hsw
        have hlast : ((a :: t).drop pat.length).getLast? = some c := by
          rw [hdec, List.getLast?_append] at hs
          cases hd : ((a :: t).drop pat.length).getLast? with
          | none =>
            rw [hd] at hs
            simp only [Option.none_or] at hs
            rw [hpc] at hs
            exact absurd (Option.some.inj hs).symm hc
          | some c' =>
            rw [hd] at hs
            simp only [Option.or_some] at hs
            exact hs
        exact ih _ hlast
      · rw [if_neg hm]
        cases t with
        | nil =>
          have : Py.replaceAllAux pat [] n [] = [] := by
            cases n <;> rfl
          rw [this]
          simpa using hs
        | cons b u =>
          have hlast : (b :: u).getLast? = some c := by
            rw [List.getLast?_cons_cons] at hs
            exact hs
          have hr := ih (b :: u) hlast
          rw [show a :: Py.replaceAllAux pat [] n (b :: u) =
            [a] ++ Py.replaceAllAux pat [] n (b :: u) from rfl]
          rw [List.getLast?_append, hr]
          rfl

/-- The last character of a stripped string is not whitespace. -/
lemma pyStripList_getLast_not_ws (l : List Char) {c : Char}
    (h : (Py.pyStripList l).getLast? = some c) : Py.isPyWs c = false := by
  unfold Py.pyStripList at h
  rw [List.getLast?_reverse] at h
  have h2 := List.head?_dropWhile_not Py.isPyWs ((l.dropWhile Py.isPyWs).reverse)
  rw [h] at h2
  exact h2

/-- Stripping keeps a list nonempty when its last character is not
whitespace. -/
lemma pyStripList_ne_nil (l : List Char) {c : Char} (hc : l.getLast? = some c)
    (hw : Py.isPyWs c = false) : Py.pyStripList l ≠ [] := by
  unfold Py.pyStripList
  intro hcontra
  rw [List.reverse_eq_nil_iff, List.dropWhile_eq_nil_iff] at hcontra
  have h1 : l.dropWhile Py.isPyWs ≠ [] := by
    rw [Ne, List.dropWhile_eq_nil_iff]
    intro hall
    have hmem : c ∈ l := List.mem_of_getLast?_eq_some hc
    rw [hall c hmem] at hw
    exact Bool.noConfusion hw
  have h2 : (l.dropWhile Py.isPyWs).getLast? = some c := by
    have hsuf : l.dropWhile Py.isPyWs <:+ l := List.dropWhile_suffix Py.isPyWs
    obtain ⟨u, hu⟩ := hsuf
    rw [← hu, List.getLast?_append] at hc
    cases hd : (l.dropWhile Py.isPyWs).getLast? with
    | none => exact absurd (List.getLast?_eq_none_iff.mp hd) h1
    | some c' =>
      rw [hd] at hc
      simp only [Option.or_some] at hc
      exact hc
  have h3 : c ∈ (l.dropWhile Py.isPyWs).reverse :=
    List.mem_reverse.mpr (List.mem_of_getLast?_eq_some h2)
  rw [hcontra c h3] at hw
  exact Bool.noConfusion hw

/-- On a nonempty stripped command, removing every `"ffmpeg "` occurrence
and stripping again still leaves a nonempty string: the final character
is not whitespace and survives (the pattern ends in a space). -/
lemma direct_clean_ne_empty (s0 : String) (h : (Py.pyStrip s0).isEmpty = false) :
    (Py.pyStrip (Py.pyReplace (Py.pyStrip s0) "ffmpeg " "")).isEmpty = false := by
  have hl : Py.pyStripList s0.data ≠ [] := (mk_isEmpty_false_iff _).mp h
  obtain ⟨c, hc⟩ : ∃ c, (Py.pyStripList s0.data).getLast? = some c := by
    cases hg : (Py.pyStripList s0.data).getLast? with
    | none => exact absurd (List.getLast?_eq_none_iff.mp hg) hl
    | some c => exact ⟨c, rfl⟩
  have hw : Py.isPyWs c = false := pyStripList_getLast_not_ws _ hc
  have hcsp : c ≠ ' ' := by
    intro hsp
    rw [hsp] at hw
    exact Bool.noConfusion hw
  have hrep := replaceAll_getLast ("ffmpeg ".data) rfl hcsp
    (Py.pyStripList s0.data).length (Py.pyStripList s0.data) hc
  rw [mk_isEmpty_false_iff]
  exact pyStripList_ne_nil _ hrep hw

/-- C10: For a found channel whose `cmd` field is a string with nonempty
strip, `getlink` takes the no-network direct path exactly when the
substring `"ffmpeg"` occurs anywhere in the stripped command: it then
redirects to the command with every `"ffmpeg "` occurrence removed and
whitespace stripped (always nonempty, hence never the 502 branch), with
zero upstream attempts; otherwise the result is exactly what
`create_link` negotiates, with at least one upstream attempt made. -/
theorem c10_ffmpeg_direct_path (channels : List JValue) (ch_id : Int)
    (pb pt : String) (atts : Nat → HttpOutcome)
    (kvs : List (String × JValue)) (s0 : String)
    (hfind : Src.findChannel channels (toString ch_id) = .ok (some (.obj kvs)))
    (hcmd : (JValue.jLookup kvs "cmd").getD (.str "") = .str s0)
    (hne : (Py.pyStrip s0).isEmpty = false) :
    (Py.strContains (Py.pyStrip s0) "ffmpeg" = true →
      Src.getlink_resolve channels ch_id pb pt atts =
        .ok (.redirect (Py.pyStrip (Py.pyReplace (Py.pyStrip s0) "ffmpeg " "")), 0)) ∧
    (Py.strContains (Py.pyStrip s0) "ffmpeg" = false →
      Src.getlink_resolve channels ch_id pb pt atts =
        .ok (match Src.create_link (Py.pyRstripSlash pb) (Py.pyStrip s0) pt atts 3 with
             | (none, n) => (Src.GLResult.failedLink, n)
             | (some u, n) =>
               (if u.isEmpty then Src.GLResult.failedLink else Src.GLResult.redirect u, n)) ∧
      1 ≤ (Src.create_link (Py.pyRstripSlash pb) (Py.pyStrip s0) pt atts 3).2) := by
  have hclean := direct_clean_ne_empty s0 hne
  constructor
  · intro hff
    unfold Src.getlink_resolve
    rw [hfind]
    dsimp only
    rw [hcmd]
    dsimp only
    rw [if_neg (by rw [hne]; exact Bool.noConfusion)]
    rw [if_pos hff]
    rw [if_neg (by rw [hclean]; exact Bool.noConfusion)]
  · intro hff
    refine ⟨?_, ?_⟩
    · unfold Src.getlink_resolve
      rw [hfind]
      dsimp only
      rw [hcmd]
      dsimp only
      rw [if_neg (by rw [hne]; exact Bool.noConfusion)]
      rw [if_neg (by rw [hff]; exact Bool.noConfusion)]
      cases h : Src.create_link (Py.pyRstripSlash pb) (Py.pyStrip s0) pt atts 3 with
      | mk r n => cases r <;> rfl
    · exact clLoop_count_ge atts 3 0 (by norm_num)

/-- Witness for C10 on a concrete channel list: an "ffmpeg"-marked command
redirects directly with zero attempts. -/
theorem c10_witness :
    Src.getlink_resolve
      [JValue.obj [("id", JValue.num 5), ("cmd", JValue.str "ffmpeg http://n/play")]]
      5 "http://h/" "1" (fun _ => HttpOutcome.exn) =
      Except.ok (Src.GLResult.redirect "http://n/play", 0) :=
  (c10_ffmpeg_direct_path
      [JValue.obj [("id", JValue.num 5), ("cmd", JValue.str "ffmpeg http://n/play")]]
      5 "http://h/" "1" (fun _ => HttpOutcome.exn)
      [("id", JValue.num 5), ("cmd", JValue.str "ffmpeg http://n/play")]
      "ffmpeg http://n/play" (by simp [Src.findChannel, JValue.pyStr, JValue.pyRepr, JValue.jLookup]) (by rfl) (by rfl)).1 (by rfl)

/-- Counterexample for C9: `normalize_url_and_name` is neither idempotent
on its own output nor total.  On input `""` it returns `("http:", "")`,
but re-normalizing the returned base URL `"http:"` yields
`("http://http:", "http:")`, a different pair; and on input `"["` the
`urllib` parse raises `ValueError("Invalid IPv6 URL")` instead of
returning a best-effort pair. -/
theorem c9_not_idempotent_not_total_cex :
    Src.normalize_url_and_name "" = .ok ("http:", "") ∧
    Src.normalize_url_and_name "http:" = .ok ("http://http:", "http:") ∧
    (("http://http:" : String), ("http:" : String)) ≠ (("http:" : String), ("" : String)) ∧
    Src.normalize_url_and_name "[" = .error (.valueError "Invalid IPv6 URL") :=
  ⟨rfl, rfl, by decide, rfl⟩

/-- Every character surviving `urlCleanList` passed the tab/CR/LF filter. -/
lemma urlCleanList_mem {c : Char} {l : List Char} (h : c ∈ UrlLib.urlCleanList l) :
    UrlLib.isUnsafeUrlChar c = false := by
  unfold UrlLib.urlCleanList at h
  rw [List.mem_reverse] at h
  have h2 := List.dropWhile_subset _ h
  rw [List.mem_reverse] at h2
  have h3 := List.dropWhile_subset _ h2
  rw [List.mem_filter] at h3
  simpa using h3.2

/-- `urlCleanList` preserves a clean nonempty prefix whose first and last
characters are not C0-or-space, leaving some remainder of the tail. -/
lemma urlClean_append_pfx (pre t : List Char) (a : Char) (rest : List Char)
    (hpre : pre = a :: rest)
    (hfil : ∀ c ∈ pre, UrlLib.isUnsafeUrlChar c = false)
    (hhead : UrlLib.isC0OrSpace a = false)
    (hlast : ∀ c, pre.getLast? = some c → UrlLib.isC0OrSpace c = false) :
    ∃ r, UrlLib.urlCleanList (pre ++ t) = pre ++ r := by
  unfold UrlLib.urlCleanList
  dsimp only
  rw [List.filter_append,
    List.filter_eq_self.mpr (fun c hc => by simp [hfil c hc])]
  have hdw : ((pre ++ t.filter (fun c => !UrlLib.isUnsafeUrlChar c)).dropWhile
      UrlLib.isC0OrSpace) = pre ++ t.filter (fun c => !UrlLib.isUnsafeUrlChar c) := by
    rw [hpre, List.cons_append, List.dropWhile_cons_of_neg (by simp [hhead])]
  rw [hdw, List.reverse_append, List.dropWhile_append]
  by_cases he : ((t.filter (fun c => !UrlLib.isUnsafeUrlChar c)).reverse.dropWhile
      UrlLib.isC0OrSpace).isEmpty = true
  · rw [if_pos he]
    have hprev : pre.reverse.dropWhile UrlLib.isC0OrSpace = pre.reverse := by
      cases hq : pre.reverse with
      | nil =>
        rw [List.reverse_eq_nil_iff] at hq
        rw [hq] at hpre
        exact absurd hpre (List.noConfusion)
      | cons q qs =>
        have hq2 : pre.getLast? = some q := by
          rw [← List.head?_reverse, hq]
          rfl
        rw [List.dropWhile_cons_of_neg (by simp [hlast q hq2])]
    rw [hprev, List.reverse_reverse]
    exact ⟨[], by rw [List.append_nil]⟩
  · rw [if_neg he]
    rw [List.reverse_append, List.reverse_reverse]
    exact ⟨_, rfl⟩

/-- `urlCleanList` is the identity on a clean string of the shape
`pre ++ t` with nonempty `t` whose last character is not C0-or-space. -/
lemma urlClean_append_exact (pre t : List Char) (a : Char) (rest : List Char)
    (hpre : pre = a :: rest)
    (hfil : ∀ c ∈ pre, UrlLib.isUnsafeUrlChar c = false)
    (hhead : UrlLib.isC0OrSpace a = false)
    (hfilt : ∀ c ∈ t, UrlLib.isUnsafeUrlChar c = false)
    (htne : t ≠ [])
    (htlast : ∀ c, t.getLast? = some c → UrlLib.isC0OrSpace c = false) :
    UrlLib.urlCleanList (pre ++ t) = pre ++ t := by
  unfold UrlLib.urlCleanList
  dsimp only
  rw [List.filter_append,
    List.filter_eq_self.mpr (fun c hc => by simp [hfil c hc]),
    List.filter_eq_self.mpr (fun c hc => by simp [hfilt c hc])]
  have hdw : ((pre ++ t).dropWhile UrlLib.isC0OrSpace) = pre ++ t := by
    rw [hpre, List.cons_append, List.dropWhile_cons_of_neg (by simp [hhead])]
  rw [hdw, List.reverse_append]
  cases hq : t.reverse with
  | nil => exact absurd (List.reverse_eq_nil_iff.mp hq) htne
  | cons q qs =>
    have hq2 : t.getLast? = some q := by
      rw [← List.head?_reverse, hq]
      rfl
    rw [List.cons_append, List.dropWhile_cons_of_neg (by simp [htlast q hq2]),
      ← List.cons_append, ← hq, ← List.reverse_append, List.reverse_reverse]

/-- `rstrip("/")` of `pre ++ nl ++ "/"` is `pre ++ nl` when `nl` is
nonempty and slash-free. -/
lemma pyRstripSlash_append (pre nl : List Char) (hnne : nl ≠ [])
    (hns : ∀ c ∈ nl, (c == '/') = false) :
    Py.pyRstripSlash (String.mk (pre ++ nl ++ ['/'])) = String.mk (pre ++ nl) := by
  show String.mk (((pre ++ nl ++ ['/']).reverse.dropWhile (· == '/')).reverse) = _
  have h1 : (pre ++ nl ++ ['/']).reverse = '/' :: (nl.reverse ++ pre.reverse) := by
    rw [List.reverse_append, List.reverse_append]
    rfl
  rw [h1, List.dropWhile_cons_of_pos (by rfl)]
  cases hq : nl.reverse with
  | nil => exact absurd (List.reverse_eq_nil_iff.mp hq) hnne
  | cons q qs =>
    have hqm : q ∈ nl := List.mem_reverse.mp (hq ▸ List.mem_cons_self q qs)
    rw [List.cons_append, List.dropWhile_cons_of_neg (by simp [hns q hqm]),
      ← List.cons_append, ← hq, ← List.reverse_append, List.reverse_reverse]

/-- `strip()` is the identity on a string whose first and last characters
are not Python whitespace. -/
lemma pyStrip_fix (a : Char) (l : List Char) (ha : Py.isPyWs a = false)
    (hlast : ∀ c, (a :: l).getLast? = some c → Py.isPyWs c = false) :
    Py.pyStrip (String.mk (a :: l)) = String.mk (a :: l) := by
  show String.mk ((((a :: l).dropWhile Py.isPyWs).reverse.dropWhile Py.isPyWs).reverse)
    = String.mk (a :: l)
  rw [List.dropWhile_cons_of_neg (by simp [ha])]
  cases hq : (a :: l).reverse with
  | nil => simp at hq
  | cons q qs =>
    have hq2 : (a :: l).getLast? = some q := by
      rw [← List.head?_reverse, hq]
      rfl
    rw [List.dropWhile_cons_of_neg (by simp [hlast q hq2]), ← hq,
      List.reverse_reverse]

/-- An `http://`-prefixed character list never starts with `https://`
(mismatch at the fifth character). -/
lemma sSW_http_https (nl : List Char) :
    Py.listStartsWith ("http://".data ++ nl) ("https://".data) = false := rfl

/-- A list starts with every prefix it extends. -/
lemma listStartsWith_append_self (p s : List Char) :
    Py.listStartsWith (p ++ s) p = true := by
  induction p with
  | nil => cases s <;> rfl
  | cons a t ih => simp [Py.listStartsWith, ih]

/-- An `http://`-prefixed character list starts with `http://`. -/
lemma sSW_http_http (nl : List Char) :
    Py.listStartsWith ("http://".data ++ nl) ("http://".data) = true :=
  listStartsWith_append_self _ nl

/-- An `https://`-prefixed character list starts with `https://`. -/
lemma sSW_https_https (nl : List Char) :
    Py.listStartsWith ("https://".data ++ nl) ("https://".data) = true :=
  listStartsWith_append_self _ nl

/-- `splitSchemeNetloc` on a clean `http://`-prefixed string yields the
`http` scheme and the tail. -/
lemma splitScheme_http_mk (nl : List Char)
    (hfilt : ∀ c ∈ nl, UrlLib.isUnsafeUrlChar c = false)
    (hnne : nl ≠ [])
    (htlast : ∀ c, nl.getLast? = some c → UrlLib.isC0OrSpace c = false) :
    UrlLib.splitSchemeNetloc (String.mk ("http://".data ++ nl)) = some ("http", nl) := by
  unfold UrlLib.splitSchemeNetloc
  dsimp only
  rw [urlClean_append_exact "http://".data nl 'h' ("ttp://".data) rfl
    (by decide) (by decide) hfilt hnne htlast]
  rw [if_neg (by rw [sSW_http_https nl]; exact Bool.noConfusion)]
  rw [if_pos (sSW_http_http nl)]
  rw [List.drop_left' (show ("http://".data : List Char).length = 7 from rfl)]

/-- `splitSchemeNetloc` on a clean `https://`-prefixed string yields the
`https` scheme and the tail. -/
lemma splitScheme_https_mk (nl : List Char)
    (hfilt : ∀ c ∈ nl, UrlLib.isUnsafeUrlChar c = false)
    (hnne : nl ≠ [])
    (htlast : ∀ c, nl.getLast? = some c → UrlLib.isC0OrSpace c = false) :
    UrlLib.splitSchemeNetloc (String.mk ("https://".data ++ nl)) = some ("https", nl) := by
  unfold UrlLib.splitSchemeNetloc
  dsimp only
  rw [urlClean_append_exact "https://".data nl 'h' ("ttps://".data) rfl
    (by decide) (by decide) hfilt hnne htlast]
  rw [if_pos (sSW_https_https nl)]
  rw [List.drop_left' (show ("https://".data : List Char).length = 8 from rfl)]

/-- `urljoin(·, "/")` of a clean delimiter-free `http://` host URL. -/
lemma urljoinRoot_http_mk (nl : List Char)
    (hfilt : ∀ c ∈ nl, UrlLib.isUnsafeUrlChar c = false)
    (hnne : nl ≠ [])
    (htlast : ∀ c, nl.getLast? = some c → UrlLib.isC0OrSpace c = false)
    (hnd : ∀ c ∈ nl, UrlLib.isNetlocDelim c = false)
    (hbb : UrlLib.badBrackets nl = false) :
    UrlLib.urljoinRoot (String.mk ("http://".data ++ nl)) =
      .ok ("http" ++ ":" ++ ("//" ++ String.mk nl ++ "/")) := by
  have hie : nl.isEmpty = false := by
    cases nl with
    | nil => exact absurd rfl hnne
    | cons a t => rfl
  unfold UrlLib.urljoinRoot
  rw [splitScheme_http_mk nl hfilt hnne htlast]
  dsimp only
  rw [List.takeWhile_eq_self_iff.mpr (fun c hc => by simp [hnd c hc])]
  rw [if_neg (by rw [hbb]; exact Bool.noConfusion)]
  rw [if_neg (by rw [hie]; exact Bool.noConfusion)]

/-- `urljoin(·, "/")` of a clean delimiter-free `https://` host URL. -/
lemma urljoinRoot_https_mk (nl : List Char)
    (hfilt : ∀ c ∈ nl, UrlLib.isUnsafeUrlChar c = false)
    (hnne : nl ≠ [])
    (htlast : ∀ c, nl.getLast? = some c → UrlLib.isC0OrSpace c = false)
    (hnd : ∀ c ∈ nl, UrlLib.isNetlocDelim c = false)
    (hbb : UrlLib.badBrackets nl = false) :
    UrlLib.urljoinRoot (String.mk ("https://".data ++ nl)) =
      .ok ("https" ++ ":" ++ ("//" ++ String.mk nl ++ "/")) := by
  have hie : nl.isEmpty = false := by
    cases nl with
    | nil => exact absurd rfl hnne
    | cons a t => rfl
  unfold UrlLib.urljoinRoot
  rw [splitScheme_https_mk nl hfilt hnne htlast]
  dsimp only
  rw [List.takeWhile_eq_self_iff.mpr (fun c hc => by simp [hnd c hc])]
  rw [if_neg (by rw [hbb]; exact Bool.noConfusion)]
  rw [if_neg (by rw [hie]; exact Bool.noConfusion)]

/-- `urlparse(·).netloc` of a clean delimiter-free `http://` host URL. -/
lemma urlsplitNetloc_http_mk (nl : List Char)
    (hfilt : ∀ c ∈ nl, UrlLib.isUnsafeUrlChar c = false)
    (hnne : nl ≠ [])
    (htlast : ∀ c, nl.getLast? = some c → UrlLib.isC0OrSpace c = false)
    (hnd : ∀ c ∈ nl, UrlLib.isNetlocDelim c = false)
    (hbb : UrlLib.badBrackets nl = false) :
    UrlLib.urlsplitNetloc (String.mk ("http://".data ++ nl)) = .ok (String.mk nl) := by
  unfold UrlLib.urlsplitNetloc
  rw [splitScheme_http_mk nl hfilt hnne htlast]
  dsimp only
  rw [List.takeWhile_eq_self_iff.mpr (fun c hc => by simp [hnd c hc])]
  rw [if_neg (by rw [hbb]; exact Bool.noConfusion)]

/-- `urlparse(·).netloc` of a clean delimiter-free `https://` host URL. -/
lemma urlsplitNetloc_https_mk (nl : List Char)
    (hfilt : ∀ c ∈ nl, UrlLib.isUnsafeUrlChar c = false)
    (hnne : nl ≠ [])
    (htlast : ∀ c, nl.getLast? = some c → UrlLib.isC0OrSpace c = false)
    (hnd : ∀ c ∈ nl, UrlLib.isNetlocDelim c = false)
    (hbb : UrlLib.badBrackets nl = false) :
    UrlLib.urlsplitNetloc (String.mk ("https://".data ++ nl)) = .ok (String.mk nl) := by
  unfold UrlLib.urlsplitNetloc
  rw [splitScheme_https_mk nl hfilt hnne htlast]
  dsimp only
  rw [List.takeWhile_eq_self_iff.mpr (fun c hc => by simp [hnd c hc])]
  rw [if_neg (by rw [hbb]; exact Bool.noConfusion)]

/-- `normalize_url_and_name` is a fixpoint on a clean `http://` host URL:
it returns the URL unchanged together with the short name derived from
the host characters. -/
lemma normalize_mk_http_fix (nl : List Char)
    (hfilt : ∀ c ∈ nl, UrlLib.isUnsafeUrlChar c = false)
    (hnne : nl ≠ [])
    (hnd : ∀ c ∈ nl, UrlLib.isNetlocDelim c = false)
    (hbb : UrlLib.badBrackets nl = false)
    (hwlast : ∀ c, nl.getLast? = some c →
      Py.isPyWs c = false ∧ UrlLib.isC0OrSpace c = false) :
    Src.normalize_url_and_name (String.mk ("http://".data ++ nl)) =
      .ok (String.mk ("http://".data ++ nl),
        Py.pyLower (
          if nl.contains '.' then
            String.join (((Py.charSplit '.' nl).map String.mk).drop
              (((Py.charSplit '.' nl).map String.mk).length - 2))
          else Py.pyReplace (String.mk nl) "." "")) := by
  have htlast : ∀ c, nl.getLast? = some c → UrlLib.isC0OrSpace c = false :=
    fun c hc => (hwlast c hc).2
  have hns : ∀ c ∈ nl, (c == '/') = false := by
    intro c hc
    have h := hnd c hc
    unfold UrlLib.isNetlocDelim at h
    exact (Bool.or_eq_false_iff.mp ((Bool.or_eq_false_iff.mp h).1)).1
  have hstrip : Py.pyStrip (String.mk ("http://".data ++ nl)) =
      String.mk ("http://".data ++ nl) := by
    apply pyStrip_fix 'h' ("ttp://".data ++ nl) (by decide)
    intro c hc
    have hc2 : ("http://".data ++ nl).getLast? = some c := hc
    rw [List.getLast?_append] at hc2
    cases hg : nl.getLast? with
    | none => exact absurd (List.getLast?_eq_none_iff.mp hg) hnne
    | some d =>
      rw [hg, Option.or_some] at hc2
      obtain rfl : d = c := Option.some.inj hc2
      exact (hwlast _ hg).1
  have hsw1 : Src.pyStartsWith (String.mk ("http://".data ++ nl)) "http://" = true :=
    sSW_http_http nl
  have hcond : (Src.pyStartsWith (String.mk ("http://".data ++ nl)) "http://" ||
      Src.pyStartsWith (String.mk ("http://".data ++ nl)) "https://") = true := by
    rw [hsw1]
    rfl
  unfold Src.normalize_url_and_name
  dsimp only
  rw [hstrip]
  rw [if_pos hcond]
  rw [urljoinRoot_http_mk nl hfilt hnne htlast hnd hbb]
  dsimp only
  rw [show ("http" ++ ":" ++ ("//" ++ String.mk nl ++ "/") : String) =
    String.mk ("http://".data ++ nl ++ ['/']) from rfl]
  rw [pyRstripSlash_append "http://".data nl hnne hns]
  rw [urlsplitNetloc_http_mk nl hfilt hnne htlast hnd hbb]

/-- `normalize_url_and_name` is a fixpoint on a clean `https://` host URL. -/
lemma normalize_mk_https_fix (nl : List Char)
    (hfilt : ∀ c ∈ nl, UrlLib.isUnsafeUrlChar c = false)
    (hnne : nl ≠ [])
    (hnd : ∀ c ∈ nl, UrlLib.isNetlocDelim c = false)
    (hbb : UrlLib.badBrackets nl = false)
    (hwlast : ∀ c, nl.getLast? = some c →
      Py.isPyWs c = false ∧ UrlLib.isC0OrSpace c = false) :
    Src.normalize_url_and_name (String.mk ("https://".data ++ nl)) =
      .ok (String.mk ("https://".data ++ nl),
        Py.pyLower (
          if nl.contains '.' then
            String.join (((Py.charSplit '.' nl).map String.mk).drop
              (((Py.charSplit '.' nl).map String.mk).length - 2))
          else Py.pyReplace (String.mk nl) "." "")) := by
  have htlast : ∀ c, nl.getLast? = some c → UrlLib.isC0OrSpace c = false :=
    fun c hc => (hwlast c hc).2
  have hns : ∀ c ∈ nl, (c == '/') = false := by
    intro c hc
    have h := hnd c hc
    unfold UrlLib.isNetlocDelim at h
    exact (Bool.or_eq_false_iff.mp ((Bool.or_eq_false_iff.mp h).1)).1
  have hstrip : Py.pyStrip (String.mk ("https://".data ++ nl)) =
      String.mk ("https://".data ++ nl) := by
    apply pyStrip_fix 'h' ("ttps://".data ++ nl) (by decide)
    intro c hc
    have hc2 : ("https://".data ++ nl).getLast? = some c := hc
    rw [List.getLast?_append] at hc2
    cases hg : nl.getLast? with
    | none => exact absurd (List.getLast?_eq_none_iff.mp hg) hnne
    | some d =>
      rw [hg, Option.or_some] at hc2
      obtain rfl : d = c := Option.some.inj hc2
      exact (hwlast _ hg).1
  have hsw2 : Src.pyStartsWith (String.mk ("https://".data ++ nl)) "https://" = true :=
    sSW_https_https nl
  have hcond : (Src.pyStartsWith (String.mk ("https://".data ++ nl)) "http://" ||
      Src.pyStartsWith (String.mk ("https://".data ++ nl)) "https://") = true := by
    rw [hsw2]
    rw [Bool.or_true]
  unfold Src.normalize_url_and_name
  dsimp only
  rw [hstrip]
  rw [if_pos hcond]
  rw [urljoinRoot_https_mk nl hfilt hnne htlast hnd hbb]
  dsimp only
  rw [show ("https" ++ ":" ++ ("//" ++ String.mk nl ++ "/") : String) =
    String.mk ("https://".data ++ nl ++ ['/']) from rfl]
  rw [pyRstripSlash_append "https://".data nl hnne hns]
  rw [urlsplitNetloc_https_mk nl hfilt hnne htlast hnd hbb]

/-- C9 (amended): `normalize_url_and_name` can raise (`ValueError` from
the `urllib` parse), and it is idempotent on those of its outputs that
retain a nonempty host whose final character is neither Python whitespace
nor C0-control-or-space: re-normalizing such a base URL returns the same
`(baseUrl, shortName)` pair.  Outputs that collapse to a bare scheme
(empty host) re-normalize to a different pair. -/
theorem c9_idempotent_on_hosted_output (x b n h : String)
    (hx : Src.normalize_url_and_name x = .ok (b, n))
    (hh : UrlLib.urlsplitNetloc b = .ok h)
    (hne : h.isEmpty = false)
    (htail : ∀ c, b.data.getLast? = some c →
      Py.isPyWs c = false ∧ UrlLib.isC0OrSpace c = false) :
    Src.normalize_url_and_name b = .ok (b, n) := by
  unfold Src.normalize_url_and_name at hx
  dsimp only at hx
  generalize hu1 : (if Src.pyStartsWith (Py.pyStrip x) "http://" ||
      Src.pyStartsWith (Py.pyStrip x) "https://" then Py.pyStrip x
    else "http://" ++ Py.pyStrip x) = u1 at hx
  have hshape : (∃ t, u1.data = "http://".data ++ t) ∨
      (∃ t, u1.data = "https://".data ++ t) := by
    by_cases hcnd : (Src.pyStartsWith (Py.pyStrip x) "http://" ||
        Src.pyStartsWith (Py.pyStrip x) "https://") = true
    · rw [if_pos hcnd] at hu1
      have hcnd2 := hcnd
      simp only [Bool.or_eq_true] at hcnd2
      rcases hcnd2 with h1 | h1
      · exact Or.inl ⟨_, by rw [← hu1]; exact listStartsWith_eq_append h1⟩
      · exact Or.inr ⟨_, by rw [← hu1]; exact listStartsWith_eq_append h1⟩
    · rw [if_neg hcnd] at hu1
      exact Or.inl ⟨(Py.pyStrip x).data, by rw [← hu1, String.data_append]⟩
  cases hj : UrlLib.urljoinRoot u1 with
  | error e =>
    rw [hj] at hx
    exact absurd hx (fun hc => Except.noConfusion hc)
  | ok u2 =>
    rw [hj] at hx
    dsimp only at hx
    cases hs : UrlLib.urlsplitNetloc (Py.pyRstripSlash u2) with
    | error e =>
      rw [hs] at hx
      exact absurd hx (fun hc => Except.noConfusion hc)
    | ok netloc =>
      rw [hs] at hx
      dsimp only at hx
      rw [Except.ok.injEq, Prod.mk.injEq] at hx
      obtain ⟨hb, hn⟩ := hx
      unfold UrlLib.urljoinRoot at hj
      rcases hshape with ⟨t, hteq⟩ | ⟨t, hteq⟩
      · -- http://-prefixed intermediate URL
        obtain ⟨r0, hcr⟩ := urlClean_append_pfx "http://".data t 'h' ("ttp://".data)
          rfl (by decide) (by decide) (fun c hc => by
            obtain rfl := Option.some.inj hc
            decide)
        cases hsp : UrlLib.splitSchemeNetloc u1 with
        | none =>
          exfalso
          unfold UrlLib.splitSchemeNetloc at hsp
          dsimp only at hsp
          rw [hteq, hcr] at hsp
          rw [if_neg (by rw [sSW_http_https]; exact Bool.noConfusion)] at hsp
          rw [if_pos (sSW_http_http r0)] at hsp
          exact Option.noConfusion hsp
        | some sr =>
          obtain ⟨sch, r⟩ := sr
          rw [hsp] at hj
          dsimp only at hj
          unfold UrlLib.splitSchemeNetloc at hsp
          dsimp only at hsp
          rw [hteq, hcr] at hsp
          rw [if_neg (by rw [sSW_http_https]; exact Bool.noConfusion)] at hsp
          rw [if_pos (sSW_http_http r0)] at hsp
          rw [List.drop_left' (show ("http://".data : List Char).length = 7 from rfl)] at hsp
          rw [Option.some.injEq, Prod.mk.injEq] at hsp
          obtain ⟨hsch, hr⟩ := hsp
          subst hsch
          subst hr
          by_cases hbbt : UrlLib.badBrackets
              (r0.takeWhile (fun c => !UrlLib.isNetlocDelim c)) = true
          · rw [if_pos hbbt] at hj
            exact absurd hj (fun hc => Except.noConfusion hc)
          · rw [if_neg hbbt] at hj
            rw [Except.ok.injEq] at hj
            by_cases hie : (r0.takeWhile
                (fun c => !UrlLib.isNetlocDelim c)).isEmpty = true
            · -- empty host: the output is the bare scheme, excluded by hne
              exfalso
              rw [if_pos hie] at hj
              rw [← hj] at hb
              have hb2 : b = "http:" := by
                rw [← hb]
                rfl
              rw [hb2] at hh
              have hcalc : UrlLib.urlsplitNetloc "http:" = .ok "" := rfl
              rw [hcalc, Except.ok.injEq] at hh
              rw [← hh] at hne
              exact absurd hne (by decide)
            · rw [if_neg hie] at hj
              set nl0 := r0.takeWhile (fun c => !UrlLib.isNetlocDelim c) with hnl0
              have hnne0 : nl0 ≠ [] := by
                intro hcon
                rw [hcon] at hie
                exact hie rfl
              have hnd0 : ∀ c ∈ nl0, UrlLib.isNetlocDelim c = false := by
                intro c hc
                have hm := List.mem_takeWhile_imp hc
                simpa using hm
              have hns0 : ∀ c ∈ nl0, (c == '/') = false := by
                intro c hc
                have hd := hnd0 c hc
                unfold UrlLib.isNetlocDelim at hd
                exact (Bool.or_eq_false_iff.mp ((Bool.or_eq_false_iff.mp hd).1)).1
              have hfilt0 : ∀ c ∈ nl0, UrlLib.isUnsafeUrlChar c = false := by
                intro c hc
                have hcin : c ∈ "http://".data ++ r0 :=
                  List.mem_append_right _ (List.takeWhile_subset _ hc)
                rw [← hcr] at hcin
                exact urlCleanList_mem hcin
              have hbb0 : UrlLib.badBrackets nl0 = false := by
                cases hq : UrlLib.badBrackets nl0 with
                | true => exact absurd hq hbbt
                | false => rfl
              have hbm : b = String.mk ("http://".data ++ nl0) := by
                rw [← hb, ← hj]
                rw [show ("http" ++ ":" ++ ("//" ++ String.mk nl0 ++ "/") : String) =
                  String.mk ("http://".data ++ nl0 ++ ['/']) from rfl]
                exact pyRstripSlash_append "http://".data nl0 hnne0 hns0
              have hwlast0 : ∀ c, nl0.getLast? = some c →
                  Py.isPyWs c = false ∧ UrlLib.isC0OrSpace c = false := by
                intro c hc
                apply htail
                rw [hbm]
                show ("http://".data ++ nl0).getLast? = some c
                rw [List.getLast?_append, hc]
                rfl
              have htlast0 : ∀ c, nl0.getLast? = some c →
                  UrlLib.isC0OrSpace c = false := fun c hc => (hwlast0 c hc).2
              have hnet : netloc = String.mk nl0 := by
                rw [hb] at hs
                rw [hbm] at hs
                rw [urlsplitNetloc_http_mk nl0 hfilt0 hnne0 htlast0 hnd0 hbb0] at hs
                exact (Except.ok.inj hs).symm
              rw [hbm]
              rw [normalize_mk_http_fix nl0 hfilt0 hnne0 hnd0 hbb0 hwlast0]
              rw [← hn, hnet]
      · -- https://-prefixed intermediate URL
        obtain ⟨r0, hcr⟩ := urlClean_append_pfx "https://".data t 'h' ("ttps://".data)
          rfl (by decide) (by decide) (fun c hc => by
            obtain rfl := Option.some.inj hc
            decide)
        cases hsp : UrlLib.splitSchemeNetloc u1 with
        | none =>
          exfalso
          unfold UrlLib.splitSchemeNetloc at hsp
          dsimp only at hsp
          rw [hteq, hcr] at hsp
          rw [if_pos (sSW_https_https r0)] at hsp
          exact Option.noConfusion hsp
        | some sr =>
          obtain ⟨sch, r⟩ := sr
          rw [hsp] at hj
          dsimp only at hj
          unfold UrlLib.splitSchemeNetloc at hsp
          dsimp only at hsp
          rw [hteq, hcr] at hsp
          rw [if_pos (sSW_https_https r0)] at hsp
          rw [List.drop_left' (show ("https://".data : List Char).length = 8 from rfl)] at hsp
          rw [Option.some.injEq, Prod.mk.injEq] at hsp
          obtain ⟨hsch, hr⟩ := hsp
          subst hsch
          subst hr
          by_cases hbbt : UrlLib.badBrackets
              (r0.takeWhile (fun c => !UrlLib.isNetlocDelim c)) = true
          · rw [if_pos hbbt] at hj
            exact absurd hj (fun hc => Except.noConfusion hc)
          · rw [if_neg hbbt] at hj
            rw [Except.ok.injEq] at hj
            by_cases hie : (r0.takeWhile
                (fun c => !UrlLib.isNetlocDelim c)).isEmpty = true
            · exfalso
              rw [if_pos hie] at hj
              rw [← hj] at hb
              have hb2 : b = "https:" := by
                rw [← hb]
                rfl
              rw [hb2] at hh
              have hcalc : UrlLib.urlsplitNetloc "https:" = .ok "" := rfl
              rw [hcalc, Except.ok.injEq] at hh
              rw [← hh] at hne
              exact absurd hne (by decide)
            · rw [if_neg hie] at hj
              set nl0 := r0.takeWhile (fun c => !UrlLib.isNetlocDelim c) with hnl0
              have hnne0 : nl0 ≠ [] := by
                intro hcon
                rw [hcon] at hie
                exact hie rfl
              have hnd0 : ∀ c ∈ nl0, UrlLib.isNetlocDelim c = false := by
                intro c hc
                have hm := List.mem_takeWhile_imp hc
                simpa using hm
              have hns0 : ∀ c ∈ nl0, (c == '/') = false := by
                intro c hc
                have hd := hnd0 c hc
                unfold UrlLib.isNetlocDelim at hd
                exact (Bool.or_eq_false_iff.mp ((Bool.or_eq_false_iff.mp hd).1)).1
              have hfilt0 : ∀ c ∈ nl0, UrlLib.isUnsafeUrlChar c = false := by
                intro c hc
                have hcin : c ∈ "https://".data ++ r0 :=
                  List.mem_append_right _ (List.takeWhile_subset _ hc)
                rw [← hcr] at hcin
                exact urlCleanList_mem hcin
              have hbb0 : UrlLib.badBrackets nl0 = false := by
                cases hq : UrlLib.badBrackets nl0 with
                | true => exact absurd hq hbbt
                | false => rfl
              have hbm : b = String.mk ("https://".data ++ nl0) := by
                rw [← hb, ← hj]
                rw [show ("https" ++ ":" ++ ("//" ++ String.mk nl0 ++ "/") : String) =
                  String.mk ("https://".data ++ nl0 ++ ['/']) from rfl]
                exact pyRstripSlash_append "https://".data nl0 hnne0 hns0
              have hwlast0 : ∀ c, nl0.getLast? = some c →
                  Py.isPyWs c = false ∧ UrlLib.isC0OrSpace c = false := by
                intro c hc
                apply htail
                rw [hbm]
                show ("https://".data ++ nl0).getLast? = some c
                rw [List.getLast?_append, hc]
                rfl
              have htlast0 : ∀ c, nl0.getLast? = some c →
                  UrlLib.isC0OrSpace c = false := fun c hc => (hwlast0 c hc).2
              have hnet : netloc = String.mk nl0 := by
                rw [hb] at hs
                rw [hbm] at hs
                rw [urlsplitNetloc_https_mk nl0 hfilt0 hnne0 htlast0 hnd0 hbb0] at hs
                exact (Except.ok.inj hs).symm
              rw [hbm]
              rw [normalize_mk_https_fix nl0 hfilt0 hnne0 hnd0 hbb0 hwlast0]
              rw [← hn, hnet]

/-- Witness for C9: re-normalizing the output base URL for input
`"example.com"` reproduces the same pair. -/
theorem c9_witness :
    Src.normalize_url_and_name "http://example.com" =
      Except.ok ("http://example.com", "examplecom") :=
  c9_idempotent_on_hosted_output "example.com" "http://example.com" "examplecom"
    "example.com" rfl rfl rfl
    (fun c hc => by
      obtain rfl := Option.some.inj hc
      decide)
